import Mathlib

/-!
# OSPRay: World / Mesh commit and the scene-graph Renderer

A shallow embedding of

* `ospray/common/World.cpp`   (`addGeometryInstance`, `freeAndNullifyEmbreeScene`,
  `World::commit`, `World::getBounds`),
* `ospray/geometry/Mesh.cpp`  (`Mesh::commit`),
* `apps/common/sg/Renderer.cpp` (`renderFrame`, `resetAccumulation`, `createDefaultCamera`,
  `setCamera`, `setIntegrator`, `setWorld`, `postCommit`),
* `ospray/lights/SunSkyLight.cpp` (the constructor and the index arithmetic of the sky
  precomputation in `SunSkyLight::commit`).

Conventions.  A C++ pointer or handle is an `Option` (`none` is `nullptr`).  Objects of
the Embree backend that a node creates and owns are embedded by value, together with a
small bookkeeping record (`Embree`) that counts what was created and released.  A C++
`throw` is an `Outcome` whose `error` is `some msg`; its `state` is the object as the
exception leaves it.
-/

set_option autoImplicit false

namespace OSPRay

/-! ## Exceptions -/

/-- Result of a member function that may throw: the object state when the call ends and
the exception message, if one was thrown. -/
structure Outcome (σ : Type) where
  state : σ
  error : Option String
  deriving DecidableEq, Repr

/-- Normal return. -/
def Outcome.ok {σ : Type} (s : σ) : Outcome σ := ⟨s, none⟩

/-- Exit by `throw std::runtime_error(msg)`. -/
def Outcome.throw {σ : Type} (s : σ) (msg : String) : Outcome σ := ⟨s, some msg⟩

/-- Sequencing: the statements after a throwing statement are not executed. -/
def Outcome.andThen {σ : Type} (o : Outcome σ) (f : σ → Outcome σ) : Outcome σ :=
  match o.error with
  | some _ => o
  | none => f o.state

/-! ## Embree backend -/

/-- An `RTCDevice` handle value. -/
abbrev RTCDevice := Nat

/-- Embree's `RTC_SCENE_FLAG_DYNAMIC`. -/
def RTC_SCENE_FLAG_DYNAMIC : Nat := 1
/-- Embree's `RTC_SCENE_FLAG_COMPACT`. -/
def RTC_SCENE_FLAG_COMPACT : Nat := 2
/-- Embree's `RTC_SCENE_FLAG_ROBUST`. -/
def RTC_SCENE_FLAG_ROBUST : Nat := 4
/-- Embree's `RTC_SCENE_FLAG_CONTEXT_FILTER_FUNCTION`. -/
def RTC_SCENE_FLAG_CONTEXT_FILTER_FUNCTION : Nat := 8

/-- An Embree geometry of type `RTC_GEOMETRY_TYPE_INSTANCE`. -/
structure RTCInstanceGeometry where
  id : Nat
  /-- Set by `rtcSetGeometryInstancedScene`. -/
  instancedScene : Option Nat
  /-- Set by `motionTransform.setEmbreeTransform`. -/
  xfm : Option Nat
  deriving DecidableEq, Repr

/-- An Embree scene object created by `rtcNewScene`. -/
structure RTCSceneObj where
  id : Nat
  /-- Geometries attached with `rtcAttachGeometry`, in attachment order. -/
  geometries : List RTCInstanceGeometry
  /-- Last value given to `rtcSetSceneFlags`. -/
  flags : Nat
  /-- Whether `rtcCommitScene` has run. -/
  committed : Bool
  deriving DecidableEq, Repr

/-- An `RTCScene` handle; `none` is the null handle. -/
abbrev RTCScene := Option RTCSceneObj

/-- Bookkeeping of the backend calls made on behalf of one object. -/
structure Embree where
  /-- Supply of fresh object ids for `rtcNewScene` and `rtcNewGeometry`. -/
  nextId : Nat
  /-- Ids of scenes passed to `rtcReleaseScene`, most recent first. -/
  releasedScenes : List Nat
  /-- Ids of geometries passed to `rtcReleaseGeometry`, most recent first. -/
  releasedGeometries : List Nat
  /-- Pairs (instance IE, geometry id) set by `ispc::Instance_set_embreeGeom`,
  most recent first. -/
  instEmbreeGeom : List (Nat × Nat)
  deriving DecidableEq, Repr

/-- The call `rtcNewScene(device)`: a fresh, empty, uncommitted scene. -/
def rtcNewScene (rtc : Embree) : Embree × RTCSceneObj :=
  ({ rtc with nextId := rtc.nextId + 1 },
   { id := rtc.nextId, geometries := [], flags := 0, committed := false })

/-- The call `rtcNewGeometry(device, RTC_GEOMETRY_TYPE_INSTANCE)`. -/
def rtcNewInstanceGeometry (rtc : Embree) : Embree × RTCInstanceGeometry :=
  ({ rtc with nextId := rtc.nextId + 1 },
   { id := rtc.nextId, instancedScene := none, xfm := none })

/-! ## Groups and instances -/

/-- The part of `ospray::Group` that `World::commit` reads. -/
structure Group where
  sceneGeometries : Option Nat
  sceneVolumes : Option Nat
  sceneClippers : Option Nat
  numInvertedClippers : Int
  deriving DecidableEq, Repr

/-- The part of `ospray::Instance` that `World::commit` reads. -/
structure Instance where
  /-- The value of `getIE()`. -/
  ie : Nat
  group : Group
  /-- The instance transform (its content is not inspected). -/
  motionTransform : Nat
  deriving DecidableEq, Repr

/-! ## World -/

/-- The parameters `World::commit` reads from the parameter store. -/
structure WorldParams where
  instance_ : Option (List Instance)
  light : Option (List Nat)
  dynamicScene : Option Bool
  compactMode : Option Bool
  robustMode : Option Bool
  deriving DecidableEq, Repr

/-- The arguments of the last `ispc::World_set` call. -/
structure ISPCWorld where
  geometriesInst : Option (List Nat)
  numGeometriesInst : Nat
  volumesInst : Option (List Nat)
  numVolumesInst : Nat
  clippersInst : Option (List Nat)
  numClippersInst : Nat
  embreeSceneHandleGeometries : RTCScene
  embreeSceneHandleVolumes : RTCScene
  embreeSceneHandleClippers : RTCScene
  numInvertedClippers : Int
  deriving DecidableEq, Repr

/-- The state of an `ospray::World`. -/
structure World where
  params : WorldParams
  embreeDevice : Option RTCDevice
  embreeSceneHandleGeometries : RTCScene
  embreeSceneHandleVolumes : RTCScene
  embreeSceneHandleClippers : RTCScene
  scivisDataValid : Bool
  pathtracerDataValid : Bool
  instances : Option (List Instance)
  lights : Option (List Nat)
  geometriesInstIEs : List Nat
  volumesInstIEs : List Nat
  clippersInstIEs : List Nat
  /-- What `ispc::World_set` last stored; `none` before the first call. -/
  ispcWorld : Option ISPCWorld
  rtc : Embree
  deriving DecidableEq, Repr

/-- The function `addGeometryInstance(scene, instScene, inst, embreeDevice)`; `scene` is
passed by reference, so the updated handle is returned. -/
def addGeometryInstance (rtc : Embree) (scene : RTCScene) (instScene : Nat)
    (inst : Instance) (embreeDevice : Option RTCDevice) :
    Except String (Embree × RTCScene) :=
  match embreeDevice with
  | none => Except.error "invalid Embree device"
  | some _ =>
    -- Create parent scene if not yet created
    let p := match scene with
      | some s => (rtc, s)
      | none => rtcNewScene rtc
    -- Create geometry instance
    let g := rtcNewInstanceGeometry p.1
    let eInst : RTCInstanceGeometry :=
      { g.2 with instancedScene := some instScene, xfm := some inst.motionTransform }
    let rtc1 : Embree := { g.1 with instEmbreeGeom := (inst.ie, eInst.id) :: g.1.instEmbreeGeom }
    let s1 : RTCSceneObj := { p.2 with geometries := p.2.geometries ++ [eInst] }
    let rtc2 : Embree := { rtc1 with releasedGeometries := eInst.id :: rtc1.releasedGeometries }
    Except.ok (rtc2, some s1)

/-- The function `freeAndNullifyEmbreeScene(scene)`: returns the bookkeeping after the
release; the handle itself becomes null at the call site. -/
def freeAndNullifyEmbreeScene (rtc : Embree) (scene : RTCScene) : Embree :=
  match scene with
  | some s => { rtc with releasedScenes := s.id :: rtc.releasedScenes }
  | none => rtc

/-- Local state of the instance loop of `World::commit`. -/
structure CommitLoop where
  w : World
  numInvertedClippers : Int
  deriving DecidableEq, Repr

/-- Loop body, first block: `if (inst->group->sceneGeometries) ...`. -/
def commitGeometries (inst : Instance) (st : CommitLoop) : Outcome CommitLoop :=
  match inst.group.sceneGeometries with
  | none => Outcome.ok st
  | some instScene =>
    let w1 : World := { st.w with geometriesInstIEs := st.w.geometriesInstIEs ++ [inst.ie] }
    match addGeometryInstance w1.rtc w1.embreeSceneHandleGeometries instScene inst
        w1.embreeDevice with
    | Except.error msg => Outcome.throw { st with w := w1 } msg
    | Except.ok (rtc, scene) =>
      Outcome.ok { st with w := { w1 with rtc := rtc, embreeSceneHandleGeometries := scene } }

/-- Loop body, second block: `if (inst->group->sceneVolumes) ...`. -/
def commitVolumes (inst : Instance) (st : CommitLoop) : Outcome CommitLoop :=
  match inst.group.sceneVolumes with
  | none => Outcome.ok st
  | some instScene =>
    let w1 : World := { st.w with volumesInstIEs := st.w.volumesInstIEs ++ [inst.ie] }
    match addGeometryInstance w1.rtc w1.embreeSceneHandleVolumes instScene inst
        w1.embreeDevice with
    | Except.error msg => Outcome.throw { st with w := w1 } msg
    | Except.ok (rtc, scene) =>
      Outcome.ok { st with w := { w1 with rtc := rtc, embreeSceneHandleVolumes := scene } }

/-- Loop body, third block: `if (inst->group->sceneClippers) ...`. -/
def commitClippers (inst : Instance) (st : CommitLoop) : Outcome CommitLoop :=
  match inst.group.sceneClippers with
  | none => Outcome.ok st
  | some instScene =>
    let w1 : World := { st.w with clippersInstIEs := st.w.clippersInstIEs ++ [inst.ie] }
    match addGeometryInstance w1.rtc w1.embreeSceneHandleClippers instScene inst
        w1.embreeDevice with
    | Except.error msg => Outcome.throw { st with w := w1 } msg
    | Except.ok (rtc, scene) =>
      Outcome.ok
        { w := { w1 with rtc := rtc, embreeSceneHandleClippers := scene },
          numInvertedClippers := st.numInvertedClippers + inst.group.numInvertedClippers }

/-- One iteration of `for (auto &&inst : *instances)`. -/
def commitInstance (inst : Instance) (st : CommitLoop) : Outcome CommitLoop :=
  ((commitGeometries inst st).andThen (commitVolumes inst)).andThen (commitClippers inst)

/-- The loop `for (auto &&inst : *instances)`. -/
def commitInstances : List Instance → CommitLoop → Outcome CommitLoop
  | [], st => Outcome.ok st
  | inst :: rest, st => (commitInstance inst st).andThen (commitInstances rest)

/-- The statement `rtcSetSceneFlags(scene, flags); rtcCommitScene(scene);` guarded by
`if (scene)`. -/
def setFlagsAndCommit (scene : RTCScene) (flags : Nat) : RTCScene :=
  match scene with
  | some s => some { s with flags := flags, committed := true }
  | none => none

/-- The value of `sceneFlags` computed by `World::commit`. -/
def sceneFlagsOf (p : WorldParams) : Nat :=
  let sceneFlags := 0
  let sceneFlags := sceneFlags ||| (if p.dynamicScene.getD false then RTC_SCENE_FLAG_DYNAMIC else 0)
  let sceneFlags := sceneFlags ||| (if p.compactMode.getD false then RTC_SCENE_FLAG_COMPACT else 0)
  let sceneFlags := sceneFlags ||| (if p.robustMode.getD false then RTC_SCENE_FLAG_ROBUST else 0)
  sceneFlags

/-- Lines 69-95 of `World::commit`: release the three scenes, invalidate the renderer
data, read the `instance` and `light` parameters, clear the three placement lists. -/
def World.commitBegin (w : World) : World :=
  let rtc := freeAndNullifyEmbreeScene w.rtc w.embreeSceneHandleGeometries
  let rtc := freeAndNullifyEmbreeScene rtc w.embreeSceneHandleVolumes
  let rtc := freeAndNullifyEmbreeScene rtc w.embreeSceneHandleClippers
  { w with
    rtc := rtc
    embreeSceneHandleGeometries := none
    embreeSceneHandleVolumes := none
    embreeSceneHandleClippers := none
    scivisDataValid := false
    pathtracerDataValid := false
    instances := w.params.instance_
    lights := w.params.light
    geometriesInstIEs := []
    volumesInstIEs := []
    clippersInstIEs := [] }

/-- Lines 97-123 of `World::commit`: `int numInvertedClippers = 0; if (instances) for ...`. -/
def World.commitLoop (w : World) : Outcome CommitLoop :=
  let numInvertedClippers : Int := 0
  match w.instances with
  | some insts => commitInstances insts ⟨w, numInvertedClippers⟩
  | none => Outcome.ok ⟨w, numInvertedClippers⟩

/-- Lines 125-156 of `World::commit`: set the flags of the present scenes, commit them and
hand the result to `ispc::World_set`. -/
def World.commitEnd (w : World) (sceneFlags : Nat) (numInvertedClippers : Int) : World :=
  let w : World :=
    { w with
      embreeSceneHandleGeometries := setFlagsAndCommit w.embreeSceneHandleGeometries sceneFlags }
  let w : World :=
    { w with
      embreeSceneHandleVolumes := setFlagsAndCommit w.embreeSceneHandleVolumes sceneFlags }
  let w : World :=
    { w with
      embreeSceneHandleClippers :=
        setFlagsAndCommit w.embreeSceneHandleClippers
          (sceneFlags ||| RTC_SCENE_FLAG_CONTEXT_FILTER_FUNCTION) }
  let numGeometriesInst := w.geometriesInstIEs.length
  let numVolumesInst := w.volumesInstIEs.length
  let numClippersInst := w.clippersInstIEs.length
  { w with
    ispcWorld := some
      { geometriesInst := if numGeometriesInst ≠ 0 then some w.geometriesInstIEs else none
        numGeometriesInst := numGeometriesInst
        volumesInst := if numVolumesInst ≠ 0 then some w.volumesInstIEs else none
        numVolumesInst := numVolumesInst
        clippersInst := if numClippersInst ≠ 0 then some w.clippersInstIEs else none
        numClippersInst := numClippersInst
        embreeSceneHandleGeometries := w.embreeSceneHandleGeometries
        embreeSceneHandleVolumes := w.embreeSceneHandleVolumes
        embreeSceneHandleClippers := w.embreeSceneHandleClippers
        numInvertedClippers := numInvertedClippers } }

/-- The member function `World::commit()`.  An exception thrown inside the loop leaves
the function at once, with the world as it is at that point. -/
def World.commit (w : World) : Outcome World :=
  let sceneFlags := sceneFlagsOf w.params
  let loop := (World.commitBegin w).commitLoop
  match loop.error with
  | some msg => Outcome.throw loop.state.w msg
  | none => Outcome.ok (loop.state.w.commitEnd sceneFlags loop.state.numInvertedClippers)

/-- The member function `World::setDevice(device)`. -/
def World.setDevice (w : World) (device : Option RTCDevice) : World :=
  { w with embreeDevice := device }

/-! ## Summaries of the commit state -/

/-- The instance has a surface scene. -/
def Instance.hasGeometries (inst : Instance) : Bool := inst.group.sceneGeometries.isSome
/-- The instance has a volume scene. -/
def Instance.hasVolumes (inst : Instance) : Bool := inst.group.sceneVolumes.isSome
/-- The instance has a clipper scene. -/
def Instance.hasClippers (inst : Instance) : Bool := inst.group.sceneClippers.isSome

/-- The observable summary of the loop state: device, the three placement lists, the
presence of the three handles and the inverted-clipper count. -/
structure LoopView where
  device : Option RTCDevice
  geometriesInstIEs : List Nat
  volumesInstIEs : List Nat
  clippersInstIEs : List Nat
  hasGeometries : Bool
  hasVolumes : Bool
  hasClippers : Bool
  numInvertedClippers : Int
  deriving DecidableEq, Repr

/-- The summary of a loop state. -/
def CommitLoop.view (st : CommitLoop) : LoopView :=
  { device := st.w.embreeDevice
    geometriesInstIEs := st.w.geometriesInstIEs
    volumesInstIEs := st.w.volumesInstIEs
    clippersInstIEs := st.w.clippersInstIEs
    hasGeometries := st.w.embreeSceneHandleGeometries.isSome
    hasVolumes := st.w.embreeSceneHandleVolumes.isSome
    hasClippers := st.w.embreeSceneHandleClippers.isSome
    numInvertedClippers := st.numInvertedClippers }

/-- The summary after the instances `insts` have been placed. -/
def LoopView.place (v : LoopView) (insts : List Instance) : LoopView :=
  { device := v.device
    geometriesInstIEs := v.geometriesInstIEs ++ (insts.filter Instance.hasGeometries).map Instance.ie
    volumesInstIEs := v.volumesInstIEs ++ (insts.filter Instance.hasVolumes).map Instance.ie
    clippersInstIEs := v.clippersInstIEs ++ (insts.filter Instance.hasClippers).map Instance.ie
    hasGeometries := v.hasGeometries || insts.any Instance.hasGeometries
    hasVolumes := v.hasVolumes || insts.any Instance.hasVolumes
    hasClippers := v.hasClippers || insts.any Instance.hasClippers
    numInvertedClippers := v.numInvertedClippers +
      ((insts.filter Instance.hasClippers).map (fun i => i.group.numInvertedClippers)).sum }

/-- The instance list a commit works on: the `instance` parameter, empty when absent. -/
def World.instanceList (w : World) : List Instance := w.params.instance_.getD []

/-- The summary of a world, with the inverted-clipper count given to `ispc::World_set`. -/
def World.view (w : World) : LoopView :=
  CommitLoop.view ⟨w, (w.ispcWorld.map ISPCWorld.numInvertedClippers).getD 0⟩

/-- The summary of a world right after `commitBegin`. -/
def LoopView.start (device : Option RTCDevice) : LoopView :=
  { device := device, geometriesInstIEs := [], volumesInstIEs := [], clippersInstIEs := [],
    hasGeometries := false, hasVolumes := false, hasClippers := false,
    numInvertedClippers := 0 }

/-- The group of the instance has at least one of the three categories. -/
def Instance.hasAny (inst : Instance) : Bool :=
  inst.hasGeometries || inst.hasVolumes || inst.hasClippers

/-! ## Boxes and `World::getBounds` -/

/-- A `float` value: a rational number (the binary32 values are among them) or one of the
two infinities.  Comparison, `min` and `max` are exact; arithmetic rounds its result (see
`roundBinary32`) and gives `none` for NaN.  Signed zero is not distinguished. -/
inductive Scalar where
  | negInf
  | fin (q : ℚ)
  | posInf
  deriving DecidableEq

/-- The comparison `a < b` on coordinates. -/
def Scalar.lt : Scalar → Scalar → Bool
  | Scalar.negInf, Scalar.negInf => false
  | Scalar.negInf, _ => true
  | Scalar.fin _, Scalar.negInf => false
  | Scalar.fin a, Scalar.fin b => decide (a < b)
  | Scalar.fin _, Scalar.posInf => true
  | Scalar.posInf, _ => false

/-- The function `min(a, b)`, that is `a < b ? a : b`. -/
def Scalar.min (a b : Scalar) : Scalar := if a.lt b then a else b

/-- The function `max(a, b)`, that is `a < b ? b : a`. -/
def Scalar.max (a b : Scalar) : Scalar := if a.lt b then b else a

/-- The type `vec3f`. -/
structure Vec3f where
  x : Scalar
  y : Scalar
  z : Scalar
  deriving DecidableEq

/-- Componentwise `min` of two `vec3f`. -/
def Vec3f.min (a b : Vec3f) : Vec3f := ⟨a.x.min b.x, a.y.min b.y, a.z.min b.z⟩

/-- Componentwise `max` of two `vec3f`. -/
def Vec3f.max (a b : Vec3f) : Vec3f := ⟨a.x.max b.x, a.y.max b.y, a.z.max b.z⟩

/-- The type `box3f`. -/
structure Box3f where
  lower : Vec3f
  upper : Vec3f
  deriving DecidableEq

/-- The type `box4f`, which `rtcGetSceneBounds` fills (`RTCBounds`: three coordinates and
one padding value per corner). -/
structure Box4f where
  lower : Vec3f
  lowerAlign : Scalar
  upper : Vec3f
  upperAlign : Scalar
  deriving DecidableEq

/-- Modelled from the spec: the `box3f` type is declared outside the given sources; its
default-constructed value is the canonical empty box, the "min > max sentinel", with
every lower coordinate at plus infinity and every upper coordinate at minus infinity. -/
def Box3f.empty : Box3f :=
  ⟨⟨Scalar.posInf, Scalar.posInf, Scalar.posInf⟩, ⟨Scalar.negInf, Scalar.negInf, Scalar.negInf⟩⟩

/-- The method `box3f::extend(const box3f &)`: grow the box to contain `b`. -/
def Box3f.extend (a b : Box3f) : Box3f := ⟨a.lower.min b.lower, a.upper.max b.upper⟩

/-- The expression `box3f(vec3f(&bounds.lower[0]), vec3f(&bounds.upper[0]))`. -/
def Box4f.toBox3f (b : Box4f) : Box3f := ⟨b.lower, b.upper⟩

/-- The member function `World::getBounds()`.  The backend query `rtcGetSceneBounds` is a
parameter. -/
def World.getBounds (rtcGetSceneBounds : RTCSceneObj → Box4f) (w : World) : Box3f :=
  let sceneBounds := Box3f.empty
  let sceneBounds :=
    match w.embreeSceneHandleGeometries with
    | some s => sceneBounds.extend (rtcGetSceneBounds s).toBox3f
    | none => sceneBounds
  let sceneBounds :=
    match w.embreeSceneHandleVolumes with
    | some s => sceneBounds.extend (rtcGetSceneBounds s).toBox3f
    | none => sceneBounds
  sceneBounds

/-- The union of a list of boxes: the canonical empty box grown by each of them. -/
def Box3f.unionAll (bs : List Box3f) : Box3f := bs.foldl Box3f.extend Box3f.empty

/-- The bounding boxes of the present structures among the given handles. -/
def presentBounds (rtcGetSceneBounds : RTCSceneObj → Box4f) (handles : List RTCScene) :
    List Box3f :=
  handles.filterMap (fun h => h.map (fun s => (rtcGetSceneBounds s).toBox3f))

/-- The bounds as the specification words them: the union of the bounding boxes of every
present structure over all three categories. -/
def World.specBounds (rtcGetSceneBounds : RTCSceneObj → Box4f) (w : World) : Box3f :=
  Box3f.unionAll (presentBounds rtcGetSceneBounds
    [w.embreeSceneHandleGeometries, w.embreeSceneHandleVolumes, w.embreeSceneHandleClippers])

/-- A world that has never been committed: no device, no handles, no parameters set. -/
def World.fresh : World :=
  { params := ⟨none, none, none, none, none⟩
    embreeDevice := none
    embreeSceneHandleGeometries := none
    embreeSceneHandleVolumes := none
    embreeSceneHandleClippers := none
    scivisDataValid := false
    pathtracerDataValid := false
    instances := none
    lights := none
    geometriesInstIEs := []
    volumesInstIEs := []
    clippersInstIEs := []
    ispcWorld := none
    rtc := ⟨0, [], [], []⟩ }

/-- A fresh world with device `d` and the given instance list as its `instance`
parameter. -/
def World.withInstances (d : Option RTCDevice) (insts : List Instance) : World :=
  { World.fresh with
    embreeDevice := d
    params := { World.fresh.params with instance_ := some insts } }

/-- A backend whose every scene has the unit cube as bounds. -/
def unitBounds (_ : RTCSceneObj) : Box4f :=
  ⟨⟨Scalar.fin 0, Scalar.fin 0, Scalar.fin 0⟩, Scalar.fin 0,
   ⟨Scalar.fin 1, Scalar.fin 1, Scalar.fin 1⟩, Scalar.fin 0⟩

/-! ## Mesh -/

/-- The element types (`OSPDataType`) that `Mesh::commit` distinguishes; every other type
is `OSP_UNKNOWN`. -/
inductive OSPDataType where
  | OSP_VEC2F
  | OSP_VEC3F
  | OSP_VEC4F
  | OSP_VEC3UI
  | OSP_VEC4UI
  | OSP_UNKNOWN
  deriving DecidableEq, Repr

/-- An `ospray::Data` array: its identity, element type and number of items. -/
structure Data where
  id : Nat
  type : OSPDataType
  numItems : Nat
  deriving DecidableEq, Repr

/-- The parameters `Mesh::commit` reads from the parameter store. -/
structure MeshParams where
  vertex_position : Option Data
  vertex_normal : Option Data
  vertex_color : Option Data
  vertex_texcoord : Option Data
  index : Option Data
  deriving DecidableEq, Repr

/-- Modelled from the spec: `getParamDataT<T>(name, required)` belongs to the parameter
store, which is outside the given sources ("get typed values by name, with a default-value
fallback and a required/optional distinction").  It returns the array stored under the
name when it has element type `T`; otherwise it throws when `required` and returns null
when not. -/
def getParamDataT (T : OSPDataType) (name : String) (param : Option Data)
    (required : Bool) : Except String (Option Data) :=
  match param with
  | some d =>
    if d.type = T then Except.ok (some d)
    else if required then Except.error ("ospray::Mesh must have '" ++ name ++ "' array")
    else Except.ok none
  | none =>
    if required then Except.error ("ospray::Mesh must have '" ++ name ++ "' array")
    else Except.ok none

/-- The Embree geometry types a mesh uses. -/
inductive RTCGeometryType where
  | RTC_GEOMETRY_TYPE_TRIANGLE
  | RTC_GEOMETRY_TYPE_QUAD
  deriving DecidableEq, Repr

/-- The Embree index formats a mesh uses. -/
inductive RTCFormat where
  | RTC_FORMAT_UINT3
  | RTC_FORMAT_UINT4
  deriving DecidableEq, Repr

/-- An Embree triangle or quad geometry created by `Mesh::commit`. -/
structure RTCMeshGeometry where
  id : Nat
  type : RTCGeometryType
  /-- Set by `setEmbreeGeometryBuffer(.., RTC_BUFFER_TYPE_VERTEX, ..)`. -/
  vertexBuffer : Option Data
  /-- Set by `rtcSetSharedGeometryBuffer(.., RTC_BUFFER_TYPE_INDEX, ..)`: format, array,
  byte stride and item count. -/
  indexBuffer : Option (RTCFormat × Data × Nat × Nat)
  committed : Bool
  deriving DecidableEq, Repr

/-- The arguments of the last `ispc::Mesh_set` call. -/
structure ISPCMesh where
  index : Option Data
  vertex : Option Data
  normal : Option Data
  color : Option Data
  texcoord : Option Data
  colorIsVec4f : Bool
  isTri : Bool
  deriving DecidableEq, Repr

/-- The state of an `ospray::Mesh`. -/
structure Mesh where
  params : MeshParams
  embreeDevice : Option RTCDevice
  embreeGeometry : Option RTCMeshGeometry
  vertexData : Option Data
  normalData : Option Data
  colorData : Option Data
  texcoordData : Option Data
  indexData : Option Data
  /-- What `ispc::Mesh_set` last stored; `none` before the first call. -/
  ispcMesh : Option ISPCMesh
  rtc : Embree
  deriving DecidableEq, Repr

/-- Lines 26-27 of `Mesh::commit`: `if (embreeGeometry) rtcReleaseGeometry(embreeGeometry);`.
The handle member keeps its value. -/
def Mesh.releaseGeometry (m : Mesh) : Mesh :=
  match m.embreeGeometry with
  | some g => { m with rtc := { m.rtc with releasedGeometries := g.id :: m.rtc.releasedGeometries } }
  | none => m

/-- Lines 33-39 of `Mesh::commit`: read the five data parameters in source order.  An
assignment whose right-hand side throws does not take place. -/
def Mesh.readParams (m : Mesh) : Outcome Mesh :=
  match getParamDataT OSPDataType.OSP_VEC3F "vertex.position" m.params.vertex_position true with
  | Except.error msg => Outcome.throw m msg
  | Except.ok vertexData =>
    let m : Mesh := { m with vertexData := vertexData }
    match getParamDataT OSPDataType.OSP_VEC3F "vertex.normal" m.params.vertex_normal false with
    | Except.error msg => Outcome.throw m msg
    | Except.ok normalData =>
      let m : Mesh := { m with normalData := normalData }
      let m : Mesh := { m with colorData := m.params.vertex_color }
      match getParamDataT OSPDataType.OSP_VEC2F "vertex.texcoord" m.params.vertex_texcoord
          false with
      | Except.error msg => Outcome.throw m msg
      | Except.ok texcoordData =>
        let m : Mesh := { m with texcoordData := texcoordData }
        match getParamDataT OSPDataType.OSP_VEC3UI "index" m.params.index false with
        | Except.error msg => Outcome.throw m msg
        | Except.ok indexData =>
          let m : Mesh := { m with indexData := indexData }
          match m.indexData with
          | some _ => Outcome.ok m
          | none =>
            match getParamDataT OSPDataType.OSP_VEC4UI "index" m.params.index true with
            | Except.error msg => Outcome.throw m msg
            | Except.ok indexData4 => Outcome.ok { m with indexData := indexData4 }

/-- Lines 41-65 of `Mesh::commit`: build and commit the Embree geometry and hand the
arrays to `ispc::Mesh_set`. -/
def Mesh.build (m : Mesh) : Outcome Mesh :=
  match m.indexData, m.vertexData with
  | some indexData, some _ =>
    let isTri : Bool := decide (indexData.type = OSPDataType.OSP_VEC3UI)
    let g : RTCMeshGeometry :=
      { id := m.rtc.nextId
        type := if isTri then RTCGeometryType.RTC_GEOMETRY_TYPE_TRIANGLE
                else RTCGeometryType.RTC_GEOMETRY_TYPE_QUAD
        vertexBuffer := none
        indexBuffer := none
        committed := false }
    let g : RTCMeshGeometry := { g with vertexBuffer := m.vertexData }
    let g : RTCMeshGeometry :=
      { g with
        indexBuffer := some
          (if isTri then RTCFormat.RTC_FORMAT_UINT3 else RTCFormat.RTC_FORMAT_UINT4,
           indexData, if isTri then 12 else 16, indexData.numItems) }
    let g : RTCMeshGeometry := { g with committed := true }
    Outcome.ok
      { m with
        rtc := { m.rtc with nextId := m.rtc.nextId + 1 }
        embreeGeometry := some g
        ispcMesh := some
          { index := m.indexData
            vertex := m.vertexData
            normal := m.normalData
            color := m.colorData
            texcoord := m.texcoordData
            colorIsVec4f :=
              match m.colorData with
              | some c => decide (c.type = OSPDataType.OSP_VEC4F)
              | none => false
            isTri := isTri } }
  | _, _ => Outcome.throw m "null pointer dereference"

/-- The member function `Mesh::commit()`. -/
def Mesh.commit (m : Mesh) : Outcome Mesh :=
  let m := m.releaseGeometry
  match m.embreeDevice with
  | none => Outcome.throw m "invalid Embree device"
  | some _ => m.readParams.andThen Mesh.build

/-- The ways the documentation says `Mesh::commit` can fail. -/
inductive MeshFailure where
  | invalidDevice
  | missingVertexPosition
  | badIndexType
  deriving DecidableEq, Repr

/-- The failure, if any, that the state and parameters of a mesh lead to: the device is
checked first, then `vertex.position`, then `index`. -/
def Mesh.failure (m : Mesh) : Option MeshFailure :=
  if m.embreeDevice = none then some MeshFailure.invalidDevice
  else if (m.params.vertex_position.map Data.type) ≠ some OSPDataType.OSP_VEC3F then
    some MeshFailure.missingVertexPosition
  else if (m.params.index.map Data.type) ≠ some OSPDataType.OSP_VEC3UI ∧
      (m.params.index.map Data.type) ≠ some OSPDataType.OSP_VEC4UI then
    some MeshFailure.badIndexType
  else none

/-- The derived state the claim speaks of: the native geometry handle and the five data
fields. -/
def Mesh.derived (m : Mesh) :
    Option RTCMeshGeometry × Option Data × Option Data × Option Data × Option Data ×
      Option Data :=
  (m.embreeGeometry, m.vertexData, m.normalData, m.colorData, m.texcoordData, m.indexData)

/-- The five data fields of a mesh: vertex, normal, color, texcoord and index. -/
def Mesh.dataFields (m : Mesh) :
    Option Data × Option Data × Option Data × Option Data × Option Data :=
  (m.vertexData, m.normalData, m.colorData, m.texcoordData, m.indexData)

/-- A newly constructed mesh with the parameters of `committedExample` set. -/
def Mesh.fresh0 : Mesh :=
  { params := ⟨some ⟨1, OSPDataType.OSP_VEC3F, 3⟩, none, none, none,
      some ⟨2, OSPDataType.OSP_VEC3UI, 1⟩⟩
    embreeDevice := none
    embreeGeometry := none
    vertexData := none
    normalData := none
    colorData := none
    texcoordData := none
    indexData := none
    ispcMesh := none
    rtc := ⟨0, [], [], []⟩ }

/-- A mesh as a successful first commit leaves it: triangle geometry 0 over vertex array 1
and index array 2. -/
def Mesh.committedExample : Mesh :=
  ({ Mesh.fresh0 with embreeDevice := some 7 } : Mesh).commit.state

/-- The mesh `committedExample` after its parameters were changed to a new vertex array 5
and an index array 6 of element type `vec2f`. -/
def Mesh.badIndexExample : Mesh :=
  { Mesh.committedExample with
    params := ⟨some ⟨5, OSPDataType.OSP_VEC3F, 4⟩, none, none, none,
      some ⟨6, OSPDataType.OSP_VEC2F, 1⟩⟩ }

/-! ## Scene-graph Renderer -/

/-- A `TimeStamp` value. -/
abbrev TimeStamp := Nat

/-- The part of an `sg::Node` child that the renderer reads: its own modification time,
the modification time of its subtree and its `OSPObject` value. -/
structure Node where
  lastModified : TimeStamp
  childrenLastModified : TimeStamp
  value : Option Nat
  deriving DecidableEq, Repr

/-- Calls into the OSPRay API and into other scene-graph objects, in the order made. -/
inductive Call where
  | ospSetObject (target : Option Nat) (name : String) (value : Option Nat)
  | ospSet1f (target : Option Nat) (name : String) (num den : Int)
  | ospCommit (target : Option Nat)
  | ospNewData (items : List (Option Nat))
  | ospCommitData (items : List (Option Nat))
  | ospSetData (target : Option Nat) (name : String) (items : List (Option Nat))
  | ospFrameBufferClear (fb : Option Nat)
  | ospRenderFrame (fb : Option Nat) (renderer : Option Nat)
  | frameBufferClear (fb : Nat)
  | worldRender (world : Nat)
  | integratorSetWorld (world : Option Nat)
  | integratorSetCamera (camera : Option Nat)
  | integratorCommit
  | cameraCommit (camera : Nat)
  | assertion (holds : Bool)
  deriving DecidableEq, Repr

/-- The part of an `sg::Integrator` that the renderer reads. -/
structure Integrator where
  ospRenderer : Option Nat
  deriving DecidableEq, Repr

/-- The part of an `sg::FrameBuffer` that the renderer reads. -/
structure FrameBuffer where
  id : Nat
  sizeX : Int
  sizeY : Int
  ospFrameBuffer : Option Nat
  deriving DecidableEq, Repr

/-- The part of an `sg::Camera` that the renderer reads. -/
structure Camera where
  id : Nat
  ospCamera : Option Nat
  deriving DecidableEq, Repr

/-- The part of an `sg::World` (`sg/common/World.h`) that the renderer reads. -/
structure SgWorld where
  id : Nat
  ospModel : Option Nat
  nodes : List Nat
  deriving DecidableEq, Repr

/-- The state of an `sg::Renderer`. -/
structure Renderer where
  /-- The renderer's own `getLastModified()`. -/
  lastModified : TimeStamp
  worldNode : Node
  cameraNode : Node
  frameBufferNode : Node
  lightsNode : Node
  /-- The children of the `lights` node. -/
  lightNodes : List Node
  shadowsEnabled : Node
  aoSamples : Node
  spp : Node
  ospRenderer : Option Nat
  frameMTime : TimeStamp
  accumID : Int
  integrator : Option Integrator
  frameBuffer : Option FrameBuffer
  camera : Option Camera
  world : Option SgWorld
  /-- Content of the serialisation `allNodes`. -/
  allNodes : List Nat
  /-- Content of the serialisation `uniqueNodes`. -/
  uniqueNodes : List Nat
  /-- Calls made so far, oldest first. -/
  calls : List Call
  deriving DecidableEq, Repr

/-- Append a call to the record. -/
def Renderer.call (r : Renderer) (c : Call) : Renderer := { r with calls := r.calls ++ [c] }

/-- The member function `Renderer::renderFrame()`: the returned code and the renderer
afterwards.  `assert` does not alter the control flow; the asserted condition is put on
record.  The scene-graph method `world->render(ctx)`, which is outside the given sources,
is the parameter `worldRender`. -/
def Renderer.renderFrame (worldRender : SgWorld → SgWorld) (r : Renderer) : Int × Renderer :=
  match r.integrator with
  | none => (1, r)
  | some integrator =>
    match r.frameBuffer with
    | none => (2, r)
    | some frameBuffer =>
      match r.camera with
      | none => (3, r)
      | some camera =>
        match r.world with
        | none => (4, r)
        | some world =>
          let r := r.call (Call.assertion integrator.ospRenderer.isSome)
          let r : Renderer :=
            match world.ospModel with
            | none =>
              let world1 := worldRender world
              let r := r.call (Call.worldRender world.id)
              let r : Renderer := { r with world := some world1 }
              r.call (Call.assertion world1.ospModel.isSome)
            | some _ => r
          let r := r.call (Call.integratorSetWorld (r.world.map SgWorld.id))
          let r := r.call (Call.integratorSetCamera (some camera.id))
          let r := r.call Call.integratorCommit
          let r := r.call (Call.cameraCommit camera.id)
          let r := r.call (Call.ospSet1f camera.ospCamera "aspect" frameBuffer.sizeX
            frameBuffer.sizeY)
          let r := r.call (Call.ospCommit camera.ospCamera)
          let r := r.call (Call.ospRenderFrame frameBuffer.ospFrameBuffer integrator.ospRenderer)
          let r : Renderer := { r with accumID := r.accumID + 1 }
          (0, r)

/-- The member function `Renderer::resetAccumulation()`. -/
def Renderer.resetAccumulation (r : Renderer) : Renderer :=
  if r.accumID = 0 then r
  else
    let r : Renderer := { r with accumID := 0 }
    match r.frameBuffer with
    | some fb => r.call (Call.frameBufferClear fb.id)
    | none => r

/-- The member function `Renderer::setCamera(camera)`. -/
def Renderer.setCamera (r : Renderer) (camera : Option Camera) : Renderer :=
  let r : Renderer := { r with camera := camera }
  let r : Renderer :=
    match camera with
    | some c => r.call (Call.cameraCommit c.id)
    | none => r
  let r : Renderer :=
    match r.integrator with
    | some _ => r.call (Call.integratorSetCamera (camera.map Camera.id))
    | none => r
  r.resetAccumulation

/-- The member function `Renderer::setIntegrator(integrator)`. -/
def Renderer.setIntegrator (r : Renderer) (integrator : Option Integrator) : Renderer :=
  let r : Renderer := { r with integrator := integrator }
  let r : Renderer :=
    match integrator with
    | some _ => r.call Call.integratorCommit
    | none => r
  r.resetAccumulation

/-- The member function `Renderer::setWorld(world)`.  The serialisation of a world, which
is outside the given sources, is the parameter `serialize` (its second argument tells
whether instances are followed).  The last statement reads `world->nodes.size()`; with a
null `world` that is a null pointer dereference, reported as an error. -/
def Renderer.setWorld (serialize : SgWorld → Bool → List Nat) (r : Renderer)
    (world : Option SgWorld) : Outcome Renderer :=
  let r : Renderer := { r with world := world }
  let r : Renderer := { r with allNodes := [] }
  let r : Renderer := { r with uniqueNodes := [] }
  let r : Renderer :=
    match world with
    | some w => { r with allNodes := serialize w false, uniqueNodes := serialize w true }
    | none => r
  let r := r.resetAccumulation
  match world with
  | some _ => Outcome.ok r
  | none => Outcome.throw r "null pointer dereference"

/-- The condition of the `if` in `Renderer::postCommit`. -/
def Renderer.needsClear (r : Renderer) : Bool :=
  decide (r.cameraNode.childrenLastModified > r.frameMTime)
    || decide (r.lightsNode.childrenLastModified > r.frameMTime)
    || decide (r.worldNode.childrenLastModified > r.frameMTime)
    || decide (r.lastModified > r.frameMTime)
    || decide (r.shadowsEnabled.lastModified > r.frameMTime)
    || decide (r.aoSamples.lastModified > r.frameMTime)
    || decide (r.spp.lastModified > r.frameMTime)

/-- The member function `Renderer::postCommit(ctx)`.  The value that `TimeStamp::now()`
returns when it is called is the parameter `now`. -/
def Renderer.postCommit (now : TimeStamp) (r : Renderer) : Renderer :=
  let r := r.call (Call.ospSetObject r.ospRenderer "model" r.worldNode.value)
  let r := r.call (Call.ospSetObject r.ospRenderer "camera" r.cameraNode.value)
  let r := r.call (Call.ospCommit r.ospRenderer)
  let lights := r.lightNodes.map Node.value
  let r := r.call (Call.ospNewData lights)
  let r := r.call (Call.ospCommitData lights)
  let r := r.call (Call.ospSetObject r.ospRenderer "model" r.worldNode.value)
  let r := r.call (Call.ospSetData r.ospRenderer "lights" lights)
  let r := r.call (Call.ospCommit r.ospRenderer)
  let r : Renderer :=
    if r.needsClear then
      let r := r.call (Call.ospFrameBufferClear r.frameBufferNode.value)
      { r with frameMTime := now }
    else r
  r.call (Call.ospCommit r.ospRenderer)

/-- The last rendering-relevant change timestamp, as the specification words it: the
maximum of the renderer's own `lastModified`, the camera, lights and world subtrees'
last-modified and the `lastModified` of `shadowsEnabled`, `aoSamples` and `spp`. -/
def Renderer.lastRelevantChange (r : Renderer) : TimeStamp :=
  max r.lastModified
    (max r.cameraNode.childrenLastModified
      (max r.lightsNode.childrenLastModified
        (max r.worldNode.childrenLastModified
          (max r.shadowsEnabled.lastModified
            (max r.aoSamples.lastModified r.spp.lastModified)))))

/-- The number of `ospFrameBufferClear` calls on record. -/
def Renderer.numClears (r : Renderer) : Nat :=
  r.calls.countP (fun c => match c with | Call.ospFrameBufferClear _ => true | _ => false)

/-- The number of `ospRenderFrame` calls on record. -/
def Renderer.numRenders (r : Renderer) : Nat :=
  r.calls.countP (fun c => match c with | Call.ospRenderFrame _ _ => true | _ => false)

/-- Repeated `renderFrame`: the renderer after `n` calls. -/
def Renderer.renderFrames (worldRender : SgWorld → SgWorld) : Nat → Renderer → Renderer
  | 0, r => r
  | n + 1, r => Renderer.renderFrames worldRender n (r.renderFrame worldRender).2

/-- A renderer whose nodes were all created at time 1, never rendered, with every
prerequisite of `renderFrame` attached. -/
def Renderer.sample : Renderer :=
  { lastModified := 1
    worldNode := ⟨1, 1, some 100⟩
    cameraNode := ⟨1, 1, some 101⟩
    frameBufferNode := ⟨1, 1, some 102⟩
    lightsNode := ⟨1, 1, none⟩
    lightNodes := [⟨1, 1, some 103⟩]
    shadowsEnabled := ⟨1, 1, none⟩
    aoSamples := ⟨1, 1, none⟩
    spp := ⟨1, 1, none⟩
    ospRenderer := some 104
    frameMTime := 0
    accumID := 0
    integrator := some ⟨some 104⟩
    frameBuffer := some ⟨0, 640, 480, some 102⟩
    camera := some ⟨1, some 101⟩
    world := some ⟨2, some 100, []⟩
    allNodes := []
    uniqueNodes := []
    calls := [] }

/-- A stand-in for `world->render(ctx)`: it creates model 100 when there is none. -/
def renderWorldExample (w : SgWorld) : SgWorld :=
  { w with ospModel := some (w.ospModel.getD 100) }

/-- The prerequisites of `renderFrame`, in the order in which it checks them. -/
inductive Prerequisite where
  | integrator
  | frameBuffer
  | camera
  | world
  deriving DecidableEq, Repr

/-- The first prerequisite that is missing, in the order integrator, frame buffer, camera,
world; `none` when all four are present. -/
def Renderer.firstMissing (r : Renderer) : Option Prerequisite :=
  if r.integrator.isNone then some Prerequisite.integrator
  else if r.frameBuffer.isNone then some Prerequisite.frameBuffer
  else if r.camera.isNone then some Prerequisite.camera
  else if r.world.isNone then some Prerequisite.world
  else none

/-- The failure code the claim assigns to a missing prerequisite. -/
def Prerequisite.code : Prerequisite → Int
  | Prerequisite.integrator => 1
  | Prerequisite.frameBuffer => 2
  | Prerequisite.camera => 3
  | Prerequisite.world => 4

/-- A run of frames without parameter writes: for each value of the clock, `postCommit`
followed by `renderFrame`. -/
def Renderer.frames (worldRender : SgWorld → SgWorld) : List TimeStamp → Renderer → Renderer
  | [], r => r
  | now :: rest, r =>
    Renderer.frames worldRender rest ((r.postCommit now).renderFrame worldRender).2

/-- The world `w` with its `instance` parameter set to the list `insts`. -/
def World.withInstanceList (w : World) (insts : List Instance) : World :=
  { w with params := { w.params with instance_ := some insts } }

/-- A world with device 7, `dynamicScene` and `robustMode` set, and one instance that has
surfaces and clippers. -/
def World.flagsExample : World :=
  { World.fresh with
    embreeDevice := some 7
    params := ⟨some [⟨1, ⟨some 10, none, some 12, 0⟩, 0⟩], none, some true, none, some true⟩ }

/-- A scene handle in the loop of a commit that started with id supply `lo`: when present,
the scene was created by this commit (its id is at least `lo` and below the current
supply) and holds one geometry per entry of the placement list; when absent, the
placement list is empty. -/
def sceneBuiltSince (lo next : Nat) (scene : RTCScene) (placements : List Nat) : Prop :=
  match scene with
  | some s => lo ≤ s.id ∧ s.id < next ∧ s.geometries.length = placements.length
  | none => placements = []

/-- Invariant of the instance loop of a commit with valid device `d`, parameters `p`,
id supply `lo` and released-scene record `rel` at the start of the loop. -/
structure LoopInv (lo : Nat) (rel : List Nat) (p : WorldParams) (d : RTCDevice)
    (st : CommitLoop) : Prop where
  device : st.w.embreeDevice = some d
  params : st.w.params = p
  released : st.w.rtc.releasedScenes = rel
  supply : lo ≤ st.w.rtc.nextId
  geometries : sceneBuiltSince lo st.w.rtc.nextId st.w.embreeSceneHandleGeometries
    st.w.geometriesInstIEs
  volumes : sceneBuiltSince lo st.w.rtc.nextId st.w.embreeSceneHandleVolumes
    st.w.volumesInstIEs
  clippers : sceneBuiltSince lo st.w.rtc.nextId st.w.embreeSceneHandleClippers
    st.w.clippersInstIEs

/-- The ids of the structures present in a world, in the order in which the next commit
records their release (most recent first). -/
def World.presentSceneIds (w : World) : List Nat :=
  (w.embreeSceneHandleClippers.toList ++ w.embreeSceneHandleVolumes.toList ++
    w.embreeSceneHandleGeometries.toList).map RTCSceneObj.id

/-- A world with device 7 and one surface-only instance. -/
def World.surfaceExample : World :=
  World.withInstances (some 7) [⟨1, ⟨some 10, none, none, 0⟩, 0⟩]

/-! ## SunSkyLight: the sky image -/

/-- The value of a 32-bit `int` computation whose mathematical result is `n`
(two's-complement wrap-around). -/
def wrapInt32 (n : Int) : Int := (n + 2147483648) % 4294967296 - 2147483648

/-- Conversion of an `int` value to the 64-bit `size_t`. -/
def toSizeT (n : Int) : Nat := (n % 18446744073709551616).toNat

/-- The constant `skyResolution` of the constructor `SunSkyLight::SunSkyLight`. -/
def SunSkyLight.skyResolution : Int := 512

/-- The member `skySize`, set by the constructor to
`vec2i(skyResolution, skyResolution / 2)`. -/
def SunSkyLight.skySize : Int × Int :=
  (SunSkyLight.skyResolution, wrapInt32 (SunSkyLight.skyResolution.tdiv 2))

/-- The length of `skyImage` after `skyImage.resize(skySize.product())`. -/
def SunSkyLight.skyImageLength : Nat :=
  toSizeT (wrapInt32 (SunSkyLight.skySize.1 * SunSkyLight.skySize.2))

/-- The statement `const size_t index = skySize.x * y + x;` of `SunSkyLight::commit`, for
`int` values `x` and `y`. -/
def SunSkyLight.index (x y : Int) : Nat :=
  toSizeT (wrapInt32 (wrapInt32 (SunSkyLight.skySize.1 * y) + x))

/-- The elements of `skyImage` that iteration `y` of the `parallel_for` writes: one per
pass of `for (int x = 0; x < skySize.x; x++)`, by `skyImage[index] = ...`. -/
def SunSkyLight.rowWrites (y : Int) : List Nat :=
  (List.range SunSkyLight.skySize.1.toNat).map (fun (x : Nat) => SunSkyLight.index (x : Int) y)

/-- The elements of `skyImage` written by `tasking::parallel_for(skySize.y, ...)`, listed
iteration by iteration. -/
def SunSkyLight.writes : List Nat :=
  (List.range SunSkyLight.skySize.2.toNat).flatMap
    (fun (y : Nat) => SunSkyLight.rowWrites (y : Int))

/-! ## Float arithmetic and `Renderer::createDefaultCamera` -/

/-- The negation `-a`. -/
def Scalar.neg : Scalar → Scalar
  | Scalar.negInf => Scalar.posInf
  | Scalar.fin q => Scalar.fin (-q)
  | Scalar.posInf => Scalar.negInf

/-- The quotient `n / d` rounded to the nearest natural number, ties to the even one. -/
def roundNearestEven (n d : Nat) : Nat :=
  let k := n / d
  let r := n % d
  if 2 * r < d then k
  else if d < 2 * r then k + 1
  else if k % 2 = 0 then k else k + 1

/-- The position of the leading binary digit of `n` (0 for `n < 2`); the first argument
bounds the number of halvings. -/
def log2Fuel : Nat → Nat → Nat
  | 0, _ => 0
  | fuel + 1, n => if n < 2 then 0 else log2Fuel fuel (n / 2) + 1

/-- The binary exponent of the positive fraction `n / d`: the integer `e` with
`2 ^ e ≤ n / d < 2 ^ (e + 1)`. -/
def floorLog2 (n d : Nat) : Int :=
  let e0 : Int := (log2Fuel n n : Int) - (log2Fuel d d : Int)
  if 0 ≤ e0 then (if d * 2 ^ e0.toNat ≤ n then e0 else e0 - 1)
  else (if d ≤ n * 2 ^ (-e0).toNat then e0 else e0 - 1)

/-- IEEE 754 binary32 rounding of an exact result `q`, round to nearest, ties to even: the
significand has 24 bits, the unit in the last place is `2 ^ (max e (-126) - 23)` for
binary exponent `e` (so subnormal results are covered), and a result that rounds to
`2 ^ 128` or more overflows to an infinity. -/
def roundBinary32 (q : ℚ) : Scalar :=
  if q = 0 then Scalar.fin 0
  else
    let n := q.num.natAbs
    let d := q.den
    let p : Int := max (floorLog2 n d) (-126) - 23
    let mag : ℚ :=
      if 0 ≤ p then ((roundNearestEven n (d * 2 ^ p.toNat) * 2 ^ p.toNat : Nat) : ℚ)
      else mkRat (roundNearestEven (n * 2 ^ (-p).toNat) d) (2 ^ (-p).toNat)
    if (2 : ℚ) ^ 128 ≤ mag then (if 0 < q then Scalar.posInf else Scalar.negInf)
    else Scalar.fin (if 0 < q then mag else -mag)

/-- The `float` sum `a + b`: the exact sum of finite values rounded to binary32; `none` is
NaN (infinity minus infinity). -/
def Scalar.add : Scalar → Scalar → Option Scalar
  | Scalar.fin a, Scalar.fin b => some (roundBinary32 (a + b))
  | Scalar.posInf, Scalar.negInf => none
  | Scalar.negInf, Scalar.posInf => none
  | Scalar.posInf, _ => some Scalar.posInf
  | _, Scalar.posInf => some Scalar.posInf
  | Scalar.negInf, _ => some Scalar.negInf
  | _, Scalar.negInf => some Scalar.negInf

/-- The sign of a finite factor applied to an infinity; `none` is NaN (zero times
infinity). -/
def Scalar.scaleInf (q : ℚ) (positive : Bool) : Option Scalar :=
  if q = 0 then none
  else if (decide (0 < q)) = positive then some Scalar.posInf
  else some Scalar.negInf

/-- The `float` product `a * b`: the exact product of finite values rounded to binary32;
`none` is NaN. -/
def Scalar.mul : Scalar → Scalar → Option Scalar
  | Scalar.fin a, Scalar.fin b => some (roundBinary32 (a * b))
  | Scalar.fin a, Scalar.posInf => Scalar.scaleInf a true
  | Scalar.fin a, Scalar.negInf => Scalar.scaleInf a false
  | Scalar.posInf, Scalar.fin b => Scalar.scaleInf b true
  | Scalar.negInf, Scalar.fin b => Scalar.scaleInf b false
  | Scalar.posInf, Scalar.posInf => some Scalar.posInf
  | Scalar.negInf, Scalar.negInf => some Scalar.posInf
  | Scalar.posInf, Scalar.negInf => some Scalar.negInf
  | Scalar.negInf, Scalar.posInf => some Scalar.negInf

/-- A `vec3f` that is the result of arithmetic: each component is a value or NaN
(`none`). -/
structure NVec3f where
  x : Option Scalar
  y : Option Scalar
  z : Option Scalar
  deriving DecidableEq

/-- A `vec3f` without NaN as an arithmetic operand. -/
def Vec3f.toN (v : Vec3f) : NVec3f := ⟨some v.x, some v.y, some v.z⟩

/-- Sum of two components; NaN propagates. -/
def NVec3f.addC (a b : Option Scalar) : Option Scalar :=
  a.bind (fun u => b.bind (fun v => u.add v))

/-- Product of two components; NaN propagates. -/
def NVec3f.mulC (a b : Option Scalar) : Option Scalar :=
  a.bind (fun u => b.bind (fun v => u.mul v))

/-- Componentwise `a + b`. -/
def NVec3f.add (a b : NVec3f) : NVec3f :=
  ⟨NVec3f.addC a.x b.x, NVec3f.addC a.y b.y, NVec3f.addC a.z b.z⟩

/-- Componentwise `a * b`. -/
def NVec3f.mul (a b : NVec3f) : NVec3f :=
  ⟨NVec3f.mulC a.x b.x, NVec3f.mulC a.y b.y, NVec3f.mulC a.z b.z⟩

/-- The product `s * v` of a `float` and a vector. -/
def NVec3f.scale (s : Scalar) (v : NVec3f) : NVec3f :=
  ⟨NVec3f.mulC (some s) v.x, NVec3f.mulC (some s) v.y, NVec3f.mulC (some s) v.z⟩

/-- Modelled from the spec: the box type is declared outside the given sources; the
"bounds' extent" `size()` of a box is `upper - lower`. -/
def Box3f.size (b : Box3f) : NVec3f :=
  b.upper.toN.add (⟨b.lower.x.neg, b.lower.y.neg, b.lower.z.neg⟩ : Vec3f).toN

/-- Modelled from the spec: the box type is declared outside the given sources; the
centre `center(b)` of a box is `0.5f * (lower + upper)`. -/
def Box3f.center (b : Box3f) : NVec3f :=
  NVec3f.scale (Scalar.fin (1 / 2)) (b.lower.toN.add b.upper.toN)

/-- The pose of an `sg::PerspectiveCamera` and the number of `commit()` calls made on
it. -/
structure PerspectiveCamera where
  from_ : NVec3f
  at_ : NVec3f
  up : NVec3f
  commits : Nat
  deriving DecidableEq

/-- The `float` literal `.3f`: the binary32 value nearest to 3/10. -/
def float_0_3 : Scalar := roundBinary32 (3 / 10)

/-- The member function `Renderer::createDefaultCamera(up)`.  The scene-graph method
`world->getBounds()` and the freshly constructed `sg::PerspectiveCamera`, both outside
the given sources, are the parameters `getBounds` and `fresh`.  Every `float` operation
rounds its own result to binary32 (no fused multiply-add); the operands -1, 3, 1.5 and
0.5 are binary32 values. -/
def Renderer.createDefaultCamera (getBounds : SgWorld → Box3f) (fresh : PerspectiveCamera)
    (r : Renderer) (up : Vec3f) : PerspectiveCamera :=
  let camera := fresh
  let camera : PerspectiveCamera :=
    match r.world with
    | some world =>
      let worldBounds := getBounds world
      if worldBounds = Box3f.empty then camera
      else
        let camera : PerspectiveCamera := { camera with at_ := worldBounds.center }
        let up : Vec3f :=
          if up = ⟨Scalar.fin 0, Scalar.fin 0, Scalar.fin 0⟩ then
            ⟨Scalar.fin 0, Scalar.fin 1, Scalar.fin 0⟩
          else up
        let camera : PerspectiveCamera := { camera with up := up.toN }
        { camera with
          from_ := worldBounds.center.add
            ((NVec3f.scale float_0_3
                (⟨Scalar.fin (-1), Scalar.fin 3, Scalar.fin (3 / 2)⟩ : Vec3f).toN).mul
              worldBounds.size) }
    | none => camera
  { camera with commits := camera.commits + 1 }

/-- A finite vector. -/
def Vec3f.ofRat (x y z : ℚ) : Vec3f := ⟨Scalar.fin x, Scalar.fin y, Scalar.fin z⟩

/-- A stand-in for a freshly constructed perspective camera. -/
def PerspectiveCamera.sample : PerspectiveCamera :=
  { from_ := (Vec3f.ofRat 0 (-1) 0).toN, at_ := (Vec3f.ofRat 0 0 0).toN,
    up := (Vec3f.ofRat 0 0 1).toN, commits := 0 }

/-- A stand-in for `world->getBounds()`: every world has the bounds [(0,0,0),(2,2,2)]. -/
def boundsExample (_ : SgWorld) : Box3f := ⟨Vec3f.ofRat 0 0 0, Vec3f.ofRat 2 2 2⟩

/-! # Properties -/

/-! ## The instance loop with a valid device -/

theorem LoopView.place_nil (v : LoopView) : v.place [] = v := by
  cases v; simp [LoopView.place]

theorem LoopView.place_cons (v : LoopView) (inst : Instance) (rest : List Instance) :
    v.place (inst :: rest) = (v.place [inst]).place rest := by
  simp only [LoopView.place, List.filter_cons, List.any_cons, List.filter_nil, List.any_nil]
  cases inst.hasGeometries <;> cases inst.hasVolumes <;> cases inst.hasClippers <;>
    simp [add_assoc]

/-- With a valid device one loop iteration does not throw and places the instance. -/
theorem commitInstance_valid (inst : Instance) (st : CommitLoop) (d : RTCDevice)
    (hd : st.w.embreeDevice = some d) :
    (commitInstance inst st).error = none ∧
    (commitInstance inst st).state.view = st.view.place [inst] := by
  unfold commitInstance commitGeometries commitVolumes commitClippers
  cases hg : inst.group.sceneGeometries <;> cases hv : inst.group.sceneVolumes <;>
    cases hc : inst.group.sceneClippers <;>
    simp [addGeometryInstance, hd, Outcome.ok, Outcome.throw, Outcome.andThen,
      CommitLoop.view, LoopView.place, Instance.hasGeometries, Instance.hasVolumes,
      Instance.hasClippers, hg, hv, hc]

/-- With a valid device the whole loop does not throw and places every instance. -/
theorem commitInstances_valid (insts : List Instance) (st : CommitLoop) (d : RTCDevice)
    (hd : st.w.embreeDevice = some d) :
    (commitInstances insts st).error = none ∧
    (commitInstances insts st).state.view = st.view.place insts := by
  induction insts generalizing st with
  | nil => simp [commitInstances, Outcome.ok, LoopView.place_nil]
  | cons inst rest ih =>
    obtain ⟨h1, h2⟩ := commitInstance_valid inst st d hd
    have hd1 : (commitInstance inst st).state.w.embreeDevice = some d := by
      have := congrArg LoopView.device h2
      simpa [CommitLoop.view, LoopView.place, hd] using this
    obtain ⟨h3, h4⟩ := ih (commitInstance inst st).state hd1
    simp only [commitInstances, Outcome.andThen, h1]
    refine ⟨h3, ?_⟩
    rw [h4, h2, ← LoopView.place_cons]

theorem setFlagsAndCommit_isSome (scene : RTCScene) (flags : Nat) :
    (setFlagsAndCommit scene flags).isSome = scene.isSome := by
  cases scene <;> rfl

/-- With a valid device `World::commit` returns normally, and the committed world is
summarised by placing the instance list into the empty start state. -/
theorem World.commit_valid (w : World) (d : RTCDevice) (hd : w.embreeDevice = some d) :
    w.commit.error = none ∧
    w.commit.state.view = (LoopView.start (some d)).place w.instanceList := by
  have hloop : w.commitBegin.commitLoop.error = none ∧
      w.commitBegin.commitLoop.state.view = (LoopView.start (some d)).place w.instanceList := by
    unfold World.commitLoop World.instanceList
    cases hi : w.params.instance_ with
    | none =>
      simp [World.commitBegin, hi, Outcome.ok, CommitLoop.view, LoopView.start,
        LoopView.place, hd]
    | some insts =>
      have hd0 : (CommitLoop.mk w.commitBegin 0).w.embreeDevice = some d := by
        simp [World.commitBegin, hd]
      have := commitInstances_valid insts ⟨w.commitBegin, 0⟩ d hd0
      simpa [World.commitBegin, hi, CommitLoop.view, LoopView.start, hd] using this
  obtain ⟨h1, h2⟩ := hloop
  unfold World.commit
  simp only [h1, Outcome.ok, true_and]
  rw [← h2]
  simp [World.view, CommitLoop.view, World.commitEnd, setFlagsAndCommit_isSome]

/-! ## The instance loop with an invalid device -/

/-- With an invalid device an iteration throws exactly when the instance has a category,
and it never touches the three scene handles. -/
theorem commitInstance_invalid (inst : Instance) (st : CommitLoop)
    (hd : st.w.embreeDevice = none) :
    (commitInstance inst st).state.w.embreeDevice = none ∧
    (commitInstance inst st).state.w.embreeSceneHandleGeometries =
      st.w.embreeSceneHandleGeometries ∧
    (commitInstance inst st).state.w.embreeSceneHandleVolumes =
      st.w.embreeSceneHandleVolumes ∧
    (commitInstance inst st).state.w.embreeSceneHandleClippers =
      st.w.embreeSceneHandleClippers ∧
    (commitInstance inst st).error =
      (if inst.hasAny then some "invalid Embree device" else none) ∧
    (inst.hasAny = false → (commitInstance inst st).state = st) := by
  unfold commitInstance commitGeometries commitVolumes commitClippers
  cases hg : inst.group.sceneGeometries <;> cases hv : inst.group.sceneVolumes <;>
    cases hc : inst.group.sceneClippers <;>
    simp [addGeometryInstance, hd, Outcome.ok, Outcome.throw, Outcome.andThen,
      Instance.hasAny, Instance.hasGeometries, Instance.hasVolumes,
      Instance.hasClippers, hg, hv, hc]

/-- With an invalid device the loop throws exactly when some instance has a category,
and it never touches the three scene handles. -/
theorem commitInstances_invalid (insts : List Instance) (st : CommitLoop)
    (hd : st.w.embreeDevice = none) :
    (commitInstances insts st).state.w.embreeSceneHandleGeometries =
      st.w.embreeSceneHandleGeometries ∧
    (commitInstances insts st).state.w.embreeSceneHandleVolumes =
      st.w.embreeSceneHandleVolumes ∧
    (commitInstances insts st).state.w.embreeSceneHandleClippers =
      st.w.embreeSceneHandleClippers ∧
    (commitInstances insts st).error =
      (if insts.any Instance.hasAny then some "invalid Embree device" else none) ∧
    (insts.any Instance.hasAny = false → (commitInstances insts st).state = st) := by
  induction insts generalizing st with
  | nil => simp [commitInstances, Outcome.ok]
  | cons inst rest ih =>
    obtain ⟨h0, h1, h2, h3, h4, h5⟩ := commitInstance_invalid inst st hd
    cases ha : inst.hasAny with
    | true =>
      simp only [ha, if_true] at h4
      simp [commitInstances, Outcome.andThen, h4, h1, h2, h3, ha]
    | false =>
      simp only [ha, Bool.false_eq_true, if_false] at h4
      have hst := h5 ha
      obtain ⟨k1, k2, k3, k4, k5⟩ := ih st hd
      simp only [commitInstances, Outcome.andThen, h4, hst, List.any_cons, ha, Bool.false_or]
      exact ⟨k1, k2, k3, k4, k5⟩

/-- The world state of `commitBegin` has null scene handles. -/
theorem World.commitBegin_handles (w : World) :
    w.commitBegin.embreeSceneHandleGeometries = none ∧
    w.commitBegin.embreeSceneHandleVolumes = none ∧
    w.commitBegin.embreeSceneHandleClippers = none ∧
    w.commitBegin.embreeDevice = w.embreeDevice ∧
    w.commitBegin.instances = w.params.instance_ := by
  simp [World.commitBegin]

/-- With an invalid device `World::commit` throws exactly when some instance has a
category; the three handles are then null. -/
theorem World.commit_invalid (w : World) (hd : w.embreeDevice = none) :
    w.commit.error =
      (if w.instanceList.any Instance.hasAny then some "invalid Embree device" else none) ∧
    (w.instanceList.any Instance.hasAny = true →
      w.commit.state.embreeSceneHandleGeometries = none ∧
      w.commit.state.embreeSceneHandleVolumes = none ∧
      w.commit.state.embreeSceneHandleClippers = none) := by
  obtain ⟨b1, b2, b3, b4, b5⟩ := w.commitBegin_handles
  unfold World.commit World.commitLoop World.instanceList
  rw [b5]
  cases hi : w.params.instance_ with
  | none => simp [Outcome.ok]
  | some insts =>
    have hd0 : (CommitLoop.mk w.commitBegin 0).w.embreeDevice = none := by
      simp [b4, hd]
    obtain ⟨k1, k2, k3, k4, _⟩ := commitInstances_invalid insts ⟨w.commitBegin, 0⟩ hd0
    simp only [Option.getD_some]
    by_cases ha : insts.any Instance.hasAny = true
    · simp only [ha, if_true] at k4
      simp [k4, Outcome.throw, k1, k2, k3, b1, b2, b3, ha]
    · simp only [ha, if_false] at k4
      simp [k4, Outcome.ok, ha]

/-- Componentwise reading of `World.commit_valid`. -/
theorem World.commit_valid_fields (w : World) (d : RTCDevice) (hd : w.embreeDevice = some d) :
    w.commit.error = none ∧
    w.commit.state.geometriesInstIEs =
      (w.instanceList.filter Instance.hasGeometries).map Instance.ie ∧
    w.commit.state.volumesInstIEs =
      (w.instanceList.filter Instance.hasVolumes).map Instance.ie ∧
    w.commit.state.clippersInstIEs =
      (w.instanceList.filter Instance.hasClippers).map Instance.ie ∧
    w.commit.state.embreeSceneHandleGeometries.isSome =
      w.instanceList.any Instance.hasGeometries ∧
    w.commit.state.embreeSceneHandleVolumes.isSome =
      w.instanceList.any Instance.hasVolumes ∧
    w.commit.state.embreeSceneHandleClippers.isSome =
      w.instanceList.any Instance.hasClippers := by
  obtain ⟨h1, h2⟩ := w.commit_valid d hd
  have e (f : LoopView → List Nat) := congrArg f h2
  have b (f : LoopView → Bool) := congrArg f h2
  refine ⟨h1, ?_, ?_, ?_, ?_, ?_, ?_⟩
  · simpa [World.view, CommitLoop.view, LoopView.place, LoopView.start]
      using e LoopView.geometriesInstIEs
  · simpa [World.view, CommitLoop.view, LoopView.place, LoopView.start]
      using e LoopView.volumesInstIEs
  · simpa [World.view, CommitLoop.view, LoopView.place, LoopView.start]
      using e LoopView.clippersInstIEs
  · simpa [World.view, CommitLoop.view, LoopView.place, LoopView.start]
      using b LoopView.hasGeometries
  · simpa [World.view, CommitLoop.view, LoopView.place, LoopView.start]
      using b LoopView.hasVolumes
  · simpa [World.view, CommitLoop.view, LoopView.place, LoopView.start]
      using b LoopView.hasClippers

/-- A handle is present exactly when the filtered, mapped list is non-empty. -/
theorem isSome_iff_placements {h : RTCScene} {l : List Nat} {insts : List Instance}
    {p : Instance → Bool} (hh : h.isSome = insts.any p)
    (hl : l = (insts.filter p).map Instance.ie) : h.isSome = true ↔ l ≠ [] := by
  rw [hh, hl]
  simp [List.any_eq_true, List.filter_eq_nil_iff]

/-! ## World::commit: the claims -/

/-- C1: with a valid device `World::commit` returns normally and each category's placement
list consists of the handles of exactly the instances of the input list whose Group has
that category, in input order and with multiplicity: `geometriesInstIEs` for
`sceneGeometries`, `volumesInstIEs` for `sceneVolumes`, `clippersInstIEs` for
`sceneClippers`.  An instance with several categories is in each of their lists, and the
length of each list is the number of list positions holding such an instance. -/
theorem C1_commit_placement_lists (w : World) (d : RTCDevice)
    (hd : w.embreeDevice = some d) :
    w.commit.error = none ∧
    w.commit.state.geometriesInstIEs =
      (w.instanceList.filter (fun i => i.group.sceneGeometries.isSome)).map Instance.ie ∧
    w.commit.state.volumesInstIEs =
      (w.instanceList.filter (fun i => i.group.sceneVolumes.isSome)).map Instance.ie ∧
    w.commit.state.clippersInstIEs =
      (w.instanceList.filter (fun i => i.group.sceneClippers.isSome)).map Instance.ie ∧
    w.commit.state.geometriesInstIEs.length =
      w.instanceList.countP (fun i => i.group.sceneGeometries.isSome) ∧
    w.commit.state.volumesInstIEs.length =
      w.instanceList.countP (fun i => i.group.sceneVolumes.isSome) ∧
    w.commit.state.clippersInstIEs.length =
      w.instanceList.countP (fun i => i.group.sceneClippers.isSome) := by
  obtain ⟨h0, hg, hv, hc, _, _, _⟩ := w.commit_valid_fields d hd
  refine ⟨h0, hg, hv, hc, ?_, ?_, ?_⟩
  · rw [hg, List.length_map, List.countP_eq_length_filter]; rfl
  · rw [hv, List.length_map, List.countP_eq_length_filter]; rfl
  · rw [hc, List.length_map, List.countP_eq_length_filter]; rfl

/-- Instance of C1: instance 1 (surfaces and clippers) is listed twice, instance 2
(volumes only) once. -/
theorem C1_commit_placement_lists_witness :
    (World.withInstances (some 7)
        [⟨1, ⟨some 10, none, some 12, 0⟩, 0⟩, ⟨2, ⟨none, some 11, none, 0⟩, 0⟩,
         ⟨1, ⟨some 10, none, some 12, 0⟩, 0⟩]).commit.state.geometriesInstIEs = [1, 1] ∧
    (World.withInstances (some 7)
        [⟨1, ⟨some 10, none, some 12, 0⟩, 0⟩, ⟨2, ⟨none, some 11, none, 0⟩, 0⟩,
         ⟨1, ⟨some 10, none, some 12, 0⟩, 0⟩]).commit.state.volumesInstIEs = [2] ∧
    (World.withInstances (some 7)
        [⟨1, ⟨some 10, none, some 12, 0⟩, 0⟩, ⟨2, ⟨none, some 11, none, 0⟩, 0⟩,
         ⟨1, ⟨some 10, none, some 12, 0⟩, 0⟩]).commit.state.clippersInstIEs = [1, 1] := by
  have h := C1_commit_placement_lists
    (World.withInstances (some 7)
        [⟨1, ⟨some 10, none, some 12, 0⟩, 0⟩, ⟨2, ⟨none, some 11, none, 0⟩, 0⟩,
         ⟨1, ⟨some 10, none, some 12, 0⟩, 0⟩]) 7 rfl
  exact ⟨h.2.1, h.2.2.1, h.2.2.2.1⟩

/-- C2: with a valid device `World::commit` returns normally and each category's
acceleration structure handle is non-null if and only if that category's placement list
is non-empty.  In particular, when the only instance has a surface-only Group, the surface
structure is present and the volume and clipper structures are absent. -/
theorem C2_structure_present_iff_placements (w : World) (d : RTCDevice)
    (hd : w.embreeDevice = some d) :
    w.commit.error = none ∧
    (w.commit.state.embreeSceneHandleGeometries.isSome = true ↔
      w.commit.state.geometriesInstIEs ≠ []) ∧
    (w.commit.state.embreeSceneHandleVolumes.isSome = true ↔
      w.commit.state.volumesInstIEs ≠ []) ∧
    (w.commit.state.embreeSceneHandleClippers.isSome = true ↔
      w.commit.state.clippersInstIEs ≠ []) ∧
    (∀ inst : Instance, w.params.instance_ = some [inst] →
      inst.group.sceneGeometries.isSome = true → inst.group.sceneVolumes = none →
      inst.group.sceneClippers = none →
      w.commit.state.embreeSceneHandleGeometries.isSome = true ∧
      w.commit.state.embreeSceneHandleVolumes = none ∧
      w.commit.state.embreeSceneHandleClippers = none) := by
  obtain ⟨h0, hg, hv, hc, kg, kv, kc⟩ := w.commit_valid_fields d hd
  refine ⟨h0, isSome_iff_placements kg hg, isSome_iff_placements kv hv,
    isSome_iff_placements kc hc, ?_⟩
  intro inst hi h1 h2 h3
  have hl : w.instanceList = [inst] := by simp [World.instanceList, hi]
  rw [hl] at kg kv kc
  refine ⟨?_, ?_, ?_⟩
  · simpa [Instance.hasGeometries, h1] using kg
  · simpa [Instance.hasVolumes, h2] using kv
  · simpa [Instance.hasClippers, h3] using kc

/-- Instance of C2: one surface-only instance. -/
theorem C2_structure_present_iff_placements_witness :
    (World.withInstances (some 7) [⟨1, ⟨some 10, none, none, 0⟩, 0⟩]).commit.state.embreeSceneHandleGeometries.isSome
      = true ∧
    (World.withInstances (some 7) [⟨1, ⟨some 10, none, none, 0⟩, 0⟩]).commit.state.embreeSceneHandleVolumes
      = none ∧
    (World.withInstances (some 7) [⟨1, ⟨some 10, none, none, 0⟩, 0⟩]).commit.state.embreeSceneHandleClippers
      = none :=
  (C2_structure_present_iff_placements
    (World.withInstances (some 7) [⟨1, ⟨some 10, none, none, 0⟩, 0⟩]) 7 rfl).2.2.2.2
    ⟨1, ⟨some 10, none, none, 0⟩, 0⟩ rfl rfl rfl rfl

/-! ## World::getBounds: the claims -/

/-- C3, as stated, fails: a world committed with one clipper-only instance has a present
clipper structure (unit-cube bounds), yet `getBounds` returns the canonical empty box,
not the union over all three categories. -/
theorem C3_getBounds_ignores_clippers :
    (World.withInstances (some 7) [⟨1, ⟨none, none, some 5, 0⟩, 0⟩]).commit.error = none ∧
    (World.withInstances (some 7) [⟨1, ⟨none, none, some 5, 0⟩, 0⟩]).commit.state.embreeSceneHandleClippers.isSome
      = true ∧
    (World.withInstances (some 7) [⟨1, ⟨none, none, some 5, 0⟩, 0⟩]).commit.state.getBounds unitBounds
      = Box3f.empty ∧
    (World.withInstances (some 7) [⟨1, ⟨none, none, some 5, 0⟩, 0⟩]).commit.state.specBounds unitBounds
      = (unitBounds ⟨0, [], 0, false⟩).toBox3f ∧
    (World.withInstances (some 7) [⟨1, ⟨none, none, some 5, 0⟩, 0⟩]).commit.state.getBounds unitBounds
      ≠ (World.withInstances (some 7) [⟨1, ⟨none, none, some 5, 0⟩, 0⟩]).commit.state.specBounds
          unitBounds := by
  decide

/-- C3, amended: for every World, `World::getBounds` returns the union of the bounding
boxes of the present surface and volume structures; an absent structure contributes
nothing, and the clipper structure, present or absent, contributes nothing. -/
theorem C3_getBounds_union_of_surfaces_and_volumes
    (rtcGetSceneBounds : RTCSceneObj → Box4f) (w : World) :
    w.getBounds rtcGetSceneBounds =
      Box3f.unionAll (presentBounds rtcGetSceneBounds
        [w.embreeSceneHandleGeometries, w.embreeSceneHandleVolumes]) ∧
    (∀ c : RTCScene,
      ({ w with embreeSceneHandleClippers := c } : World).getBounds rtcGetSceneBounds =
        w.getBounds rtcGetSceneBounds) := by
  refine ⟨?_, fun c => rfl⟩
  unfold World.getBounds presentBounds Box3f.unionAll
  cases w.embreeSceneHandleGeometries <;> cases w.embreeSceneHandleVolumes <;> rfl

/-- C4: a World committed with zero instances (absent or empty instance list) has all
three structures absent and `getBounds` returns the canonical empty box, whose lower
corner exceeds its upper corner in every coordinate; and `getBounds` returns the canonical
empty box for every World in which no structure is present. -/
theorem C4_zero_instances_empty_bounds (rtcGetSceneBounds : RTCSceneObj → Box4f) (w : World)
    (h : w.params.instance_ = none ∨ w.params.instance_ = some []) :
    w.commit.error = none ∧
    w.commit.state.embreeSceneHandleGeometries = none ∧
    w.commit.state.embreeSceneHandleVolumes = none ∧
    w.commit.state.embreeSceneHandleClippers = none ∧
    w.commit.state.getBounds rtcGetSceneBounds = Box3f.empty ∧
    (Box3f.empty.upper.x.lt Box3f.empty.lower.x = true ∧
      Box3f.empty.upper.y.lt Box3f.empty.lower.y = true ∧
      Box3f.empty.upper.z.lt Box3f.empty.lower.z = true) ∧
    (∀ v : World, v.embreeSceneHandleGeometries = none → v.embreeSceneHandleVolumes = none →
      v.embreeSceneHandleClippers = none → v.getBounds rtcGetSceneBounds = Box3f.empty) := by
  have hall : ∀ v : World, v.embreeSceneHandleGeometries = none →
      v.embreeSceneHandleVolumes = none → v.embreeSceneHandleClippers = none →
      v.getBounds rtcGetSceneBounds = Box3f.empty := by
    intro v hg hv _
    simp [World.getBounds, hg, hv]
  have hc : w.commit.error = none ∧ w.commit.state.embreeSceneHandleGeometries = none ∧
      w.commit.state.embreeSceneHandleVolumes = none ∧
      w.commit.state.embreeSceneHandleClippers = none := by
    rcases h with h | h <;>
      simp [World.commit, World.commitLoop, World.commitBegin, World.commitEnd,
        commitInstances, Outcome.ok, setFlagsAndCommit, h]
  obtain ⟨h0, hg, hv, hk⟩ := hc
  exact ⟨h0, hg, hv, hk, hall _ hg hv hk, by decide, hall⟩

/-- Instance of C4: a fresh world without an `instance` parameter. -/
theorem C4_zero_instances_empty_bounds_witness :
    World.fresh.commit.error = none ∧
    World.fresh.commit.state.embreeSceneHandleGeometries = none ∧
    World.fresh.commit.state.embreeSceneHandleVolumes = none ∧
    World.fresh.commit.state.embreeSceneHandleClippers = none ∧
    World.fresh.commit.state.getBounds unitBounds = Box3f.empty := by
  have h := C4_zero_instances_empty_bounds unitBounds World.fresh (Or.inl rfl)
  exact ⟨h.1, h.2.1, h.2.2.1, h.2.2.2.1, h.2.2.2.2.1⟩

/-! ## World::commit with an invalid device: the claim -/

/-- C9: `World::commit` fails exactly when the device is invalid and some instance's Group
has a category present; it then fails with the error "invalid Embree device" and all three
structure handles are absent afterwards.  With an invalid device and no instance having
any category present, commit does not fail. -/
theorem C9_failed_commit_leaves_no_structure (w : World) :
    (w.commit.error ≠ none ↔
      (w.embreeDevice = none ∧
        ∃ inst ∈ w.instanceList, inst.group.sceneGeometries.isSome = true ∨
          inst.group.sceneVolumes.isSome = true ∨ inst.group.sceneClippers.isSome = true)) ∧
    (w.commit.error ≠ none →
      w.commit.error = some "invalid Embree device" ∧
      w.commit.state.embreeSceneHandleGeometries = none ∧
      w.commit.state.embreeSceneHandleVolumes = none ∧
      w.commit.state.embreeSceneHandleClippers = none) ∧
    (w.embreeDevice = none →
      (∀ inst ∈ w.instanceList, inst.group.sceneGeometries = none ∧
        inst.group.sceneVolumes = none ∧ inst.group.sceneClippers = none) →
      w.commit.error = none) := by
  have hany : w.instanceList.any Instance.hasAny = true ↔
      ∃ inst ∈ w.instanceList, inst.group.sceneGeometries.isSome = true ∨
        inst.group.sceneVolumes.isSome = true ∨ inst.group.sceneClippers.isSome = true := by
    simp [List.any_eq_true, Instance.hasAny, Instance.hasGeometries, Instance.hasVolumes,
      Instance.hasClippers, or_assoc]
  cases hd : w.embreeDevice with
  | some d =>
    have h0 := (w.commit_valid d hd).1
    simp [h0]
  | none =>
    obtain ⟨h1, h2⟩ := w.commit_invalid hd
    by_cases ha : w.instanceList.any Instance.hasAny = true
    · have he : w.commit.error = some "invalid Embree device" := by simpa [ha] using h1
      refine ⟨?_, ?_, ?_⟩
      · simp only [he, ne_eq, reduceCtorEq, not_false_eq_true, true_and, true_iff]
        exact hany.mp ha
      · intro _
        exact ⟨he, h2 ha⟩
      · intro _ hall
        exfalso
        obtain ⟨inst, hin, hcat⟩ := hany.mp ha
        obtain ⟨a, b, c⟩ := hall inst hin
        simp [a, b, c] at hcat
    · have he : w.commit.error = none := by simpa [ha] using h1
      refine ⟨?_, ?_, ?_⟩
      · simp only [he, ne_eq, not_true_eq_false, true_and, false_iff]
        exact fun hx => ha (hany.mpr hx)
      · intro hx
        exact absurd he hx
      · intro _ _
        exact he

/-- A failing commit: invalid device, and the second instance has a volume scene.  The
world had a surface structure from an earlier commit. -/
theorem C9_failed_commit_leaves_no_structure_witness :
    ({ World.withInstances none
          [⟨1, ⟨none, none, none, 0⟩, 0⟩, ⟨2, ⟨none, some 11, none, 0⟩, 0⟩] with
        embreeSceneHandleGeometries := some ⟨3, [], 0, true⟩ } : World).commit.error
      = some "invalid Embree device" ∧
    ({ World.withInstances none
          [⟨1, ⟨none, none, none, 0⟩, 0⟩, ⟨2, ⟨none, some 11, none, 0⟩, 0⟩] with
        embreeSceneHandleGeometries := some ⟨3, [], 0, true⟩ } : World).commit.state.embreeSceneHandleGeometries
      = none ∧
    ({ World.withInstances none
          [⟨1, ⟨none, none, none, 0⟩, 0⟩, ⟨2, ⟨none, some 11, none, 0⟩, 0⟩] with
        embreeSceneHandleGeometries := some ⟨3, [], 0, true⟩ } : World).commit.state.embreeSceneHandleVolumes
      = none ∧
    ({ World.withInstances none
          [⟨1, ⟨none, none, none, 0⟩, 0⟩, ⟨2, ⟨none, some 11, none, 0⟩, 0⟩] with
        embreeSceneHandleGeometries := some ⟨3, [], 0, true⟩ } : World).commit.state.embreeSceneHandleClippers
      = none :=
  (C9_failed_commit_leaves_no_structure
    ({ World.withInstances none
          [⟨1, ⟨none, none, none, 0⟩, 0⟩, ⟨2, ⟨none, some 11, none, 0⟩, 0⟩] with
        embreeSceneHandleGeometries := some ⟨3, [], 0, true⟩ } : World)).2.1 (by decide)

/-! ## Mesh::commit: the claim -/

/-- C10, as stated, fails: a committed mesh whose parameters are changed to a new vertex
array and an index array of element type `vec2f` fails to commit, and the failed commit
has replaced `vertexData` by the new array and `indexData` by null. -/
theorem C10_failed_commit_overwrites_data :
    Mesh.badIndexExample.failure = some MeshFailure.badIndexType ∧
    Mesh.badIndexExample.commit.error = some "ospray::Mesh must have 'index' array" ∧
    Mesh.badIndexExample.vertexData = some ⟨1, OSPDataType.OSP_VEC3F, 3⟩ ∧
    Mesh.badIndexExample.commit.state.vertexData = some ⟨5, OSPDataType.OSP_VEC3F, 4⟩ ∧
    Mesh.badIndexExample.indexData = some ⟨2, OSPDataType.OSP_VEC3UI, 1⟩ ∧
    Mesh.badIndexExample.commit.state.indexData = none ∧
    Mesh.badIndexExample.commit.state.derived ≠ Mesh.badIndexExample.derived := by
  decide

/-- C10, amended: `Mesh::commit` fails exactly for an invalid device, a missing
`vertex.position` array of `vec3f`, or an index array that is neither `vec3ui` nor
`vec4ui`, and a failed commit reports an error.  When it fails for the device or for
`vertex.position`, the vertex/normal/color/texcoord/index data fields are the same as
before.  When it fails for the index array, the vertex, normal, color and texcoord fields
hold what the current parameters give and `indexData` is null. -/
theorem C10_failed_commit_data_fields (m : Mesh) :
    (m.commit.error ≠ none ↔ m.failure ≠ none) ∧
    (m.failure = some MeshFailure.invalidDevice ∨
        m.failure = some MeshFailure.missingVertexPosition →
      m.commit.state.dataFields = m.dataFields) ∧
    (m.failure = some MeshFailure.badIndexType →
      m.commit.state.vertexData = m.params.vertex_position ∧
      Except.ok m.commit.state.normalData =
        getParamDataT OSPDataType.OSP_VEC3F "vertex.normal" m.params.vertex_normal false ∧
      m.commit.state.colorData = m.params.vertex_color ∧
      Except.ok m.commit.state.texcoordData =
        getParamDataT OSPDataType.OSP_VEC2F "vertex.texcoord" m.params.vertex_texcoord false ∧
      m.commit.state.indexData = none) := by
  have hrel : ∀ x : Mesh, x.releaseGeometry.dataFields = x.dataFields ∧
      x.releaseGeometry.params = x.params ∧
      x.releaseGeometry.embreeDevice = x.embreeDevice := by
    intro x
    unfold Mesh.releaseGeometry
    cases h : x.embreeGeometry <;> simp [Mesh.dataFields, h]
  obtain ⟨r1, r2, r3⟩ := hrel m
  simp only [Mesh.dataFields, Prod.mk.injEq] at r1
  obtain ⟨g2, g3, g4, g5, g6⟩ := r1
  unfold Mesh.commit Mesh.failure
  simp only [r3]
  cases hd : m.embreeDevice with
  | none => simp [Outcome.throw, Mesh.dataFields, g2, g3, g4, g5, g6]
  | some d =>
    simp only [reduceCtorEq, if_false]
    unfold Mesh.readParams
    simp only [r2]
    cases hv : m.params.vertex_position with
    | none => simp [getParamDataT, Outcome.throw, Outcome.andThen, Mesh.dataFields,
        g2, g3, g4, g5, g6]
    | some v =>
      by_cases hvt : v.type = OSPDataType.OSP_VEC3F
      · cases hi : m.params.index with
        | none =>
          cases hn : m.params.vertex_normal <;> cases ht : m.params.vertex_texcoord <;>
            simp [getParamDataT, Outcome.throw, Outcome.andThen, Outcome.ok, Mesh.build,
              hvt] <;>
            split_ifs <;> simp [Outcome.throw, Outcome.ok]
        | some ix =>
          by_cases h3 : ix.type = OSPDataType.OSP_VEC3UI
          · cases hn : m.params.vertex_normal <;> cases ht : m.params.vertex_texcoord <;>
              simp [getParamDataT, Outcome.throw, Outcome.andThen, Outcome.ok, Mesh.build,
                hvt, h3] <;>
              split_ifs <;> simp [Outcome.throw, Outcome.ok, Mesh.build, h3]
          · by_cases h4 : ix.type = OSPDataType.OSP_VEC4UI
            · cases hn : m.params.vertex_normal <;> cases ht : m.params.vertex_texcoord <;>
                simp [getParamDataT, Outcome.throw, Outcome.andThen, Outcome.ok, Mesh.build,
                  hvt, h3, h4] <;>
                split_ifs <;> simp [Outcome.throw, Outcome.ok, Mesh.build, h3, h4]
            · cases hn : m.params.vertex_normal <;> cases ht : m.params.vertex_texcoord <;>
                simp [getParamDataT, Outcome.throw, Outcome.andThen, Outcome.ok, Mesh.build,
                  hvt, h3, h4] <;>
                split_ifs <;> simp [Outcome.throw, Outcome.ok, Mesh.build, h3, h4]
      · simp [getParamDataT, Outcome.throw, Outcome.andThen, Mesh.dataFields, hvt,
          g2, g3, g4, g5, g6]

/-- Instance of the amended C10 at the mesh with a `vec2f` index array and at a committed
mesh that lost its device. -/
theorem C10_failed_commit_data_fields_witness :
    (Mesh.badIndexExample.commit.state.vertexData = some ⟨5, OSPDataType.OSP_VEC3F, 4⟩ ∧
      Mesh.badIndexExample.commit.state.indexData = none) ∧
    ({ Mesh.committedExample with embreeDevice := none } : Mesh).commit.state.dataFields =
      Mesh.committedExample.dataFields :=
  ⟨⟨((C10_failed_commit_data_fields Mesh.badIndexExample).2.2 (by decide)).1,
    ((C10_failed_commit_data_fields Mesh.badIndexExample).2.2 (by decide)).2.2.2.2⟩,
   (C10_failed_commit_data_fields
      ({ Mesh.committedExample with embreeDevice := none } : Mesh)).2.1
    (Or.inl (by decide))⟩

/-! ## Renderer: helper lemmas -/

theorem Renderer.needsClear_iff (r : Renderer) :
    r.needsClear = true ↔ r.lastRelevantChange > r.frameMTime := by
  simp only [Renderer.needsClear, Renderer.lastRelevantChange, Bool.or_eq_true,
    decide_eq_true_eq, gt_iff_lt, lt_max_iff]
  tauto

/-- The fields that `postCommit` changes are the call record and, in the clear branch,
`frameMTime`. -/
theorem Renderer.postCommit_eq (now : TimeStamp) (r : Renderer) :
    r.postCommit now =
      { r with
        frameMTime := if r.needsClear then now else r.frameMTime
        calls := r.calls ++
          [Call.ospSetObject r.ospRenderer "model" r.worldNode.value,
           Call.ospSetObject r.ospRenderer "camera" r.cameraNode.value,
           Call.ospCommit r.ospRenderer,
           Call.ospNewData (r.lightNodes.map Node.value),
           Call.ospCommitData (r.lightNodes.map Node.value),
           Call.ospSetObject r.ospRenderer "model" r.worldNode.value,
           Call.ospSetData r.ospRenderer "lights" (r.lightNodes.map Node.value),
           Call.ospCommit r.ospRenderer] ++
          (if r.needsClear then [Call.ospFrameBufferClear r.frameBufferNode.value] else []) ++
          [Call.ospCommit r.ospRenderer] } := by
  have hc : ∀ (x : Renderer) (c : Call), (x.call c).needsClear = x.needsClear :=
    fun _ _ => rfl
  simp only [Renderer.postCommit, hc]
  by_cases h : r.needsClear = true <;> simp [Renderer.call, h]

/-- The number of clears on record after `postCommit`. -/
theorem Renderer.postCommit_numClears (now : TimeStamp) (r : Renderer) :
    (r.postCommit now).numClears = r.numClears + (if r.needsClear then 1 else 0) := by
  rw [Renderer.postCommit_eq]
  by_cases h : r.needsClear = true <;>
    simp [Renderer.numClears, List.countP_append, List.countP_cons, h]

/-- The value of `frameMTime` after `postCommit`. -/
theorem Renderer.postCommit_frameMTime (now : TimeStamp) (r : Renderer) :
    (r.postCommit now).frameMTime = if r.needsClear then now else r.frameMTime := by
  rw [Renderer.postCommit_eq]

/-- The tracked timestamps are not written by `postCommit`. -/
theorem Renderer.postCommit_lastRelevantChange (now : TimeStamp) (r : Renderer) :
    (r.postCommit now).lastRelevantChange = r.lastRelevantChange := by
  rw [Renderer.postCommit_eq]; rfl

/-- With all four prerequisites attached `renderFrame` returns 0, adds one to `accumID`,
keeps the prerequisites attached and writes no timestamp. -/
theorem Renderer.renderFrame_present (worldRender : SgWorld → SgWorld) (r : Renderer)
    (hi : r.integrator.isSome = true) (hf : r.frameBuffer.isSome = true)
    (hc : r.camera.isSome = true) (hw : r.world.isSome = true) :
    (r.renderFrame worldRender).1 = 0 ∧
    (r.renderFrame worldRender).2.accumID = r.accumID + 1 ∧
    (r.renderFrame worldRender).2.integrator.isSome = true ∧
    (r.renderFrame worldRender).2.frameBuffer.isSome = true ∧
    (r.renderFrame worldRender).2.camera.isSome = true ∧
    (r.renderFrame worldRender).2.world.isSome = true ∧
    (r.renderFrame worldRender).2.frameMTime = r.frameMTime ∧
    (r.renderFrame worldRender).2.lastRelevantChange = r.lastRelevantChange ∧
    (r.renderFrame worldRender).2.numClears = r.numClears := by
  obtain ⟨i, hi⟩ := Option.isSome_iff_exists.mp hi
  obtain ⟨f, hf⟩ := Option.isSome_iff_exists.mp hf
  obtain ⟨c, hc⟩ := Option.isSome_iff_exists.mp hc
  obtain ⟨w, hw⟩ := Option.isSome_iff_exists.mp hw
  unfold Renderer.renderFrame
  simp only [hi, hf, hc, hw]
  cases w.ospModel <;>
    simp [Renderer.call, Renderer.lastRelevantChange, Renderer.numClears, hi, hf, hc, hw,
      List.countP_append, List.countP_cons]

/-- `n` successful renders add `n` to `accumID` and write no timestamp. -/
theorem Renderer.renderFrames_present (worldRender : SgWorld → SgWorld) (n : Nat)
    (r : Renderer)
    (hi : r.integrator.isSome = true) (hf : r.frameBuffer.isSome = true)
    (hc : r.camera.isSome = true) (hw : r.world.isSome = true) :
    (Renderer.renderFrames worldRender n r).accumID = r.accumID + n ∧
    (Renderer.renderFrames worldRender n r).frameMTime = r.frameMTime ∧
    (Renderer.renderFrames worldRender n r).lastRelevantChange = r.lastRelevantChange ∧
    (Renderer.renderFrames worldRender n r).numClears = r.numClears := by
  induction n generalizing r with
  | zero => simp [Renderer.renderFrames]
  | succ k ih =>
    obtain ⟨_, h2, h3, h4, h5, h6, h7, h8, h9⟩ :=
      r.renderFrame_present worldRender hi hf hc hw
    obtain ⟨k1, k2, k3, k4⟩ := ih (r.renderFrame worldRender).2 h3 h4 h5 h6
    simp only [Renderer.renderFrames]
    refine ⟨?_, by rw [k2, h7], by rw [k3, h8], by rw [k4, h9]⟩
    rw [k1, h2]; push_cast; ring

/-- Whatever it returns, `renderFrame` writes no timestamp and clears nothing. -/
theorem Renderer.renderFrame_stamps (worldRender : SgWorld → SgWorld) (r : Renderer) :
    (r.renderFrame worldRender).2.frameMTime = r.frameMTime ∧
    (r.renderFrame worldRender).2.lastRelevantChange = r.lastRelevantChange ∧
    (r.renderFrame worldRender).2.numClears = r.numClears := by
  unfold Renderer.renderFrame
  cases hi : r.integrator <;> cases hf : r.frameBuffer <;> cases hc : r.camera <;>
    cases hw : r.world <;> try exact ⟨rfl, rfl, rfl⟩
  rename_i i f c w
  dsimp only
  cases hm : w.ospModel <;>
    simp [Renderer.call, Renderer.lastRelevantChange, Renderer.numClears,
      List.countP_append, List.countP_cons]

/-- The fields that `resetAccumulation` leaves alone, and its effect on `accumID`. -/
theorem Renderer.resetAccumulation_spec (r : Renderer) :
    r.resetAccumulation.accumID = 0 ∧
    r.resetAccumulation.frameMTime = r.frameMTime ∧
    r.resetAccumulation.numClears = r.numClears := by
  unfold Renderer.resetAccumulation
  by_cases h : r.accumID = 0
  · simp [h]
  · cases hf : r.frameBuffer <;>
      simp [h, hf, Renderer.call, Renderer.numClears, List.countP_append, List.countP_cons]

/-! ## Renderer: the claims -/

/-- C5: `Renderer::postCommit` clears the frame buffer (one more `ospFrameBufferClear` call,
on the `frameBuffer` child) and sets `frameMTime` to the value of `TimeStamp::now()` if and
only if the last rendering-relevant change timestamp (the maximum of the renderer's own
`lastModified`, the camera, lights and world subtrees' children-last-modified and the
`lastModified` of `shadowsEnabled`, `aoSamples` and `spp`) exceeds `frameMTime`; otherwise
no clear call is made and `frameMTime` is unchanged. -/
theorem C5_postCommit_clears_iff_relevant_change (now : TimeStamp) (r : Renderer) :
    (((r.postCommit now).numClears = r.numClears + 1 ∧
        (r.postCommit now).calls.contains (Call.ospFrameBufferClear r.frameBufferNode.value)
          = true ∧
        (r.postCommit now).frameMTime = now) ↔
      r.lastRelevantChange > r.frameMTime) ∧
    (¬ r.lastRelevantChange > r.frameMTime →
      (r.postCommit now).numClears = r.numClears ∧
      (r.postCommit now).frameMTime = r.frameMTime) := by
  have hn := r.postCommit_numClears now
  have hf := r.postCommit_frameMTime now
  have hiff := r.needsClear_iff
  by_cases h : r.needsClear = true
  · have hgt := hiff.mp h
    simp only [h, if_true] at hn hf
    refine ⟨⟨fun _ => hgt, fun _ => ⟨hn, ?_, hf⟩⟩, fun hx => absurd hgt hx⟩
    rw [Renderer.postCommit_eq]
    simp [h]
  · have hgt : ¬ r.lastRelevantChange > r.frameMTime := fun hx => h (hiff.mpr hx)
    simp [h] at hn hf
    refine ⟨⟨fun hx => ?_, fun hx => absurd hx hgt⟩, fun _ => ⟨hn, hf⟩⟩
    have h1 := hx.1
    rw [hn] at h1
    omega

/-- Instance of C5: nothing is newer than `frameMTime = 1`, so nothing is cleared. -/
theorem C5_postCommit_clears_iff_relevant_change_witness :
    (({ Renderer.sample with frameMTime := 1 } : Renderer).postCommit 9).numClears = 0 ∧
    (({ Renderer.sample with frameMTime := 1 } : Renderer).postCommit 9).frameMTime = 1 :=
  (C5_postCommit_clears_iff_relevant_change 9
    ({ Renderer.sample with frameMTime := 1 } : Renderer)).2 (by decide)

/-- C6, as stated, fails in both directions: for a renderer with `accumID = 3` the clear
branch of `postCommit` refreshes `frameMTime` (0 to 9) and leaves `accumID` at 3, and
`resetAccumulation` resets `accumID` to 0 and leaves `frameMTime` at 0. -/
theorem C6_reset_and_refresh_not_coupled :
    ({ Renderer.sample with accumID := 3 } : Renderer).frameMTime = 0 ∧
    (({ Renderer.sample with accumID := 3 } : Renderer).postCommit 9).frameMTime = 9 ∧
    (({ Renderer.sample with accumID := 3 } : Renderer).postCommit 9).accumID = 3 ∧
    ({ Renderer.sample with accumID := 3 } : Renderer).resetAccumulation.accumID = 0 ∧
    ({ Renderer.sample with accumID := 3 } : Renderer).resetAccumulation.frameMTime = 0 := by
  decide

/-- C6, amended: `accumID` and `frameMTime` are maintained by separate operations.
`resetAccumulation`, and through it `setCamera`, `setIntegrator` and `setWorld`, leaves
`accumID` equal to 0 and leaves `frameMTime` unchanged; `renderFrame` leaves `frameMTime`
unchanged; `frameMTime` changes only in the clear branch of `postCommit`. -/
theorem C6_reset_and_refresh_separate (worldRender : SgWorld → SgWorld)
    (serialize : SgWorld → Bool → List Nat) (now : TimeStamp) (r : Renderer)
    (camera : Option Camera) (integrator : Option Integrator) (world : Option SgWorld) :
    (r.resetAccumulation.accumID = 0 ∧ r.resetAccumulation.frameMTime = r.frameMTime) ∧
    ((r.setCamera camera).accumID = 0 ∧ (r.setCamera camera).frameMTime = r.frameMTime) ∧
    ((r.setIntegrator integrator).accumID = 0 ∧
      (r.setIntegrator integrator).frameMTime = r.frameMTime) ∧
    ((r.setWorld serialize world).state.accumID = 0 ∧
      (r.setWorld serialize world).state.frameMTime = r.frameMTime) ∧
    (r.renderFrame worldRender).2.frameMTime = r.frameMTime ∧
    ((r.postCommit now).frameMTime ≠ r.frameMTime →
      r.lastRelevantChange > r.frameMTime ∧ (r.postCommit now).frameMTime = now ∧
      (r.postCommit now).numClears = r.numClears + 1) := by
  have hreset : ∀ x : Renderer, x.resetAccumulation.accumID = 0 ∧
      x.resetAccumulation.frameMTime = x.frameMTime :=
    fun x => ⟨x.resetAccumulation_spec.1, x.resetAccumulation_spec.2.1⟩
  refine ⟨hreset r, ?_, ?_, ?_, ?_, ?_⟩
  · unfold Renderer.setCamera
    refine ⟨(hreset _).1, ?_⟩
    rw [(hreset _).2]
    cases camera <;> cases r.integrator <;> rfl
  · unfold Renderer.setIntegrator
    refine ⟨(hreset _).1, ?_⟩
    rw [(hreset _).2]
    cases integrator <;> rfl
  · unfold Renderer.setWorld
    cases world with
    | none => exact ⟨(hreset _).1, by simp only [Outcome.throw]; rw [(hreset _).2]⟩
    | some w => exact ⟨(hreset _).1, by simp only [Outcome.ok]; rw [(hreset _).2]⟩
  · exact (r.renderFrame_stamps worldRender).1
  · intro hne
    have hn := r.postCommit_numClears now
    have hf := r.postCommit_frameMTime now
    by_cases h : r.needsClear = true
    · simp [h] at hn hf
      exact ⟨r.needsClear_iff.mp h, hf, hn⟩
    · simp [h] at hf
      exact absurd hf hne

/-- Instance of the amended C6 at a renderer with `accumID = 3`. -/
theorem C6_reset_and_refresh_separate_witness :
    (({ Renderer.sample with accumID := 3 } : Renderer).postCommit 9).frameMTime ≠
      ({ Renderer.sample with accumID := 3 } : Renderer).frameMTime ∧
    ({ Renderer.sample with accumID := 3 } : Renderer).lastRelevantChange >
      ({ Renderer.sample with accumID := 3 } : Renderer).frameMTime ∧
    (({ Renderer.sample with accumID := 3 } : Renderer).postCommit 9).frameMTime = 9 ∧
    (({ Renderer.sample with accumID := 3 } : Renderer).postCommit 9).numClears =
      ({ Renderer.sample with accumID := 3 } : Renderer).numClears + 1 :=
  ⟨by decide,
   (C6_reset_and_refresh_separate renderWorldExample (fun _ _ => []) 9
      ({ Renderer.sample with accumID := 3 } : Renderer) none none none).2.2.2.2.2 (by decide)⟩

/-- When no tracked timestamp exceeds `frameMTime`, `postCommit` clears nothing and only
extends the call record. -/
theorem Renderer.postCommit_quiet (now : TimeStamp) (r : Renderer)
    (h : r.lastRelevantChange ≤ r.frameMTime) :
    (r.postCommit now).numClears = r.numClears ∧
    (r.postCommit now).frameMTime = r.frameMTime ∧
    (r.postCommit now).lastRelevantChange = r.lastRelevantChange ∧
    (r.postCommit now).accumID = r.accumID ∧
    (r.postCommit now).integrator = r.integrator ∧
    (r.postCommit now).frameBuffer = r.frameBuffer ∧
    (r.postCommit now).camera = r.camera ∧
    (r.postCommit now).world = r.world := by
  have hq : ¬ r.needsClear = true := fun hx => by
    exact absurd (r.needsClear_iff.mp hx) (not_lt.mpr h)
  have hn := r.postCommit_numClears now
  have hf := r.postCommit_frameMTime now
  simp [hq] at hn hf
  refine ⟨hn, hf, r.postCommit_lastRelevantChange now, ?_, ?_, ?_, ?_, ?_⟩ <;>
    rw [Renderer.postCommit_eq]

/-- A run of frames that starts with no tracked timestamp above `frameMTime` clears
nothing, keeps `frameMTime`, and adds one to `accumID` per frame when the prerequisites of
`renderFrame` are attached. -/
theorem Renderer.frames_quiet (worldRender : SgWorld → SgWorld) (nows : List TimeStamp)
    (r : Renderer) (h : r.lastRelevantChange ≤ r.frameMTime) :
    (Renderer.frames worldRender nows r).numClears = r.numClears ∧
    (Renderer.frames worldRender nows r).frameMTime = r.frameMTime ∧
    (r.integrator.isSome = true → r.frameBuffer.isSome = true → r.camera.isSome = true →
      r.world.isSome = true →
      (Renderer.frames worldRender nows r).accumID = r.accumID + nows.length) := by
  induction nows generalizing r with
  | nil => simp [Renderer.frames]
  | cons now rest ih =>
    obtain ⟨q1, q2, q3, q4, q5, q6, q7, q8⟩ := r.postCommit_quiet now h
    obtain ⟨s1, s2, s3⟩ := (r.postCommit now).renderFrame_stamps worldRender
    have h1 : ((r.postCommit now).renderFrame worldRender).2.lastRelevantChange ≤
        ((r.postCommit now).renderFrame worldRender).2.frameMTime := by
      rw [s1, s2, q2, q3]; exact h
    obtain ⟨k1, k2, k3⟩ := ih _ h1
    simp only [Renderer.frames]
    refine ⟨by rw [k1, s3, q1], by rw [k2, s1, q2], ?_⟩
    intro hi hf hc hw
    obtain ⟨_, p2, p3, p4, p5, p6, _⟩ :=
      (r.postCommit now).renderFrame_present worldRender (by rw [q5]; exact hi)
        (by rw [q6]; exact hf) (by rw [q7]; exact hc) (by rw [q8]; exact hw)
    rw [k3 p3 p4 p5 p6, p2, q4, List.length_cons]
    push_cast; ring

/-- C7: if the value `now` that `TimeStamp::now()` returns is strictly greater than every
tracked timestamp, then right after `Renderer::postCommit` none of the seven tracked
timestamps exceeds `frameMTime`; a following `postCommit` clears nothing and keeps
`frameMTime`; and over any run of frames without parameter writes (`postCommit` then
`renderFrame`, repeatedly) nothing is cleared, `frameMTime` stays, and with the
prerequisites of `renderFrame` attached `accumID` goes up by one per frame from its value
`k` before, never reset. -/
theorem C7_no_clear_without_parameter_write (worldRender : SgWorld → SgWorld)
    (now : TimeStamp) (r : Renderer) (hnow : r.lastRelevantChange < now) :
    ((r.postCommit now).lastModified ≤ (r.postCommit now).frameMTime ∧
      (r.postCommit now).cameraNode.childrenLastModified ≤ (r.postCommit now).frameMTime ∧
      (r.postCommit now).lightsNode.childrenLastModified ≤ (r.postCommit now).frameMTime ∧
      (r.postCommit now).worldNode.childrenLastModified ≤ (r.postCommit now).frameMTime ∧
      (r.postCommit now).shadowsEnabled.lastModified ≤ (r.postCommit now).frameMTime ∧
      (r.postCommit now).aoSamples.lastModified ≤ (r.postCommit now).frameMTime ∧
      (r.postCommit now).spp.lastModified ≤ (r.postCommit now).frameMTime) ∧
    (∀ now2 : TimeStamp,
      ((r.postCommit now).postCommit now2).numClears = (r.postCommit now).numClears ∧
      ((r.postCommit now).postCommit now2).frameMTime = (r.postCommit now).frameMTime) ∧
    (∀ nows : List TimeStamp,
      (Renderer.frames worldRender nows (r.postCommit now)).numClears =
        (r.postCommit now).numClears ∧
      (Renderer.frames worldRender nows (r.postCommit now)).frameMTime =
        (r.postCommit now).frameMTime ∧
      (r.integrator.isSome = true → r.frameBuffer.isSome = true → r.camera.isSome = true →
        r.world.isSome = true →
        (Renderer.frames worldRender nows (r.postCommit now)).accumID =
          r.accumID + nows.length)) := by
  have hinv : (r.postCommit now).lastRelevantChange ≤ (r.postCommit now).frameMTime := by
    rw [r.postCommit_lastRelevantChange now, r.postCommit_frameMTime now]
    by_cases h : r.needsClear = true
    · simp only [h, if_true]; exact le_of_lt hnow
    · have : ¬ r.lastRelevantChange > r.frameMTime := fun hx => h (r.needsClear_iff.mpr hx)
      simp only [h]; exact not_lt.mp this
  have heq : (r.postCommit now).accumID = r.accumID ∧
      (r.postCommit now).integrator = r.integrator ∧
      (r.postCommit now).frameBuffer = r.frameBuffer ∧
      (r.postCommit now).camera = r.camera ∧ (r.postCommit now).world = r.world := by
    refine ⟨?_, ?_, ?_, ?_, ?_⟩ <;> rw [Renderer.postCommit_eq]
  refine ⟨?_, ?_, ?_⟩
  · have h7 := hinv
    simp only [Renderer.lastRelevantChange, max_le_iff] at h7
    obtain ⟨a, b, c, d, e, f, g⟩ := h7
    exact ⟨a, b, c, d, e, f, g⟩
  · intro now2
    obtain ⟨q1, q2, _⟩ := (r.postCommit now).postCommit_quiet now2 hinv
    exact ⟨q1, q2⟩
  · intro nows
    obtain ⟨k1, k2, k3⟩ := Renderer.frames_quiet worldRender nows (r.postCommit now) hinv
    refine ⟨k1, k2, ?_⟩
    intro hi hf hc hw
    obtain ⟨e1, e2, e3, e4, e5⟩ := heq
    rw [k3 (by rw [e2]; exact hi) (by rw [e3]; exact hf) (by rw [e4]; exact hc)
      (by rw [e5]; exact hw), e1]

/-- Instance of C7: the sample renderer, with `accumID = 5`, commits at time 9 and then
runs three frames. -/
theorem C7_no_clear_without_parameter_write_witness :
    (Renderer.frames renderWorldExample [10, 11, 12]
        (({ Renderer.sample with accumID := 5 } : Renderer).postCommit 9)).numClears =
      (({ Renderer.sample with accumID := 5 } : Renderer).postCommit 9).numClears ∧
    (Renderer.frames renderWorldExample [10, 11, 12]
        (({ Renderer.sample with accumID := 5 } : Renderer).postCommit 9)).frameMTime =
      (({ Renderer.sample with accumID := 5 } : Renderer).postCommit 9).frameMTime ∧
    (Renderer.frames renderWorldExample [10, 11, 12]
        (({ Renderer.sample with accumID := 5 } : Renderer).postCommit 9)).accumID = 5 + 3 := by
  have h := (C7_no_clear_without_parameter_write renderWorldExample 9
    ({ Renderer.sample with accumID := 5 } : Renderer) (by decide)).2.2 [10, 11, 12]
  exact ⟨h.1, h.2.1, h.2.2 rfl rfl rfl rfl⟩

/-- C8: `Renderer::renderFrame` returns 0 if and only if the integrator, frame buffer,
camera and world are all present; otherwise it returns the code of the first missing
prerequisite in the order integrator (1), frame buffer (2), camera (3), world (4); the
code is then nonzero, and different prerequisites have different codes. -/
theorem C8_renderFrame_codes (worldRender : SgWorld → SgWorld) (r : Renderer) :
    ((r.renderFrame worldRender).1 = 0 ↔
      (r.integrator.isSome = true ∧ r.frameBuffer.isSome = true ∧ r.camera.isSome = true ∧
        r.world.isSome = true)) ∧
    (∀ p : Prerequisite, r.firstMissing = some p →
      (r.renderFrame worldRender).1 = p.code ∧ (r.renderFrame worldRender).1 ≠ 0) ∧
    (r.integrator = none → (r.renderFrame worldRender).1 = 1) ∧
    (r.integrator.isSome = true → r.frameBuffer = none → (r.renderFrame worldRender).1 = 2) ∧
    (r.integrator.isSome = true → r.frameBuffer.isSome = true → r.camera = none →
      (r.renderFrame worldRender).1 = 3) ∧
    (r.integrator.isSome = true → r.frameBuffer.isSome = true → r.camera.isSome = true →
      r.world = none → (r.renderFrame worldRender).1 = 4) ∧
    (∀ p q : Prerequisite, p.code = q.code → p = q) := by
  refine ⟨?_, ?_, ?_, ?_, ?_, ?_, ?_⟩
  · unfold Renderer.renderFrame
    cases r.integrator <;> cases r.frameBuffer <;> cases r.camera <;> cases r.world <;> simp
  · intro p
    unfold Renderer.renderFrame Renderer.firstMissing
    cases r.integrator <;> cases r.frameBuffer <;> cases r.camera <;> cases r.world <;>
      simp <;> rintro rfl <;> simp [Prerequisite.code]
  · intro h
    simp [Renderer.renderFrame, h]
  · intro h1 h2
    obtain ⟨i, hi⟩ := Option.isSome_iff_exists.mp h1
    simp [Renderer.renderFrame, hi, h2]
  · intro h1 h2 h3
    obtain ⟨i, hi⟩ := Option.isSome_iff_exists.mp h1
    obtain ⟨f, hf⟩ := Option.isSome_iff_exists.mp h2
    simp [Renderer.renderFrame, hi, hf, h3]
  · intro h1 h2 h3 h4
    obtain ⟨i, hi⟩ := Option.isSome_iff_exists.mp h1
    obtain ⟨f, hf⟩ := Option.isSome_iff_exists.mp h2
    obtain ⟨c, hc⟩ := Option.isSome_iff_exists.mp h3
    simp [Renderer.renderFrame, hi, hf, hc, h4]
  · intro p q
    cases p <;> cases q <;> simp [Prerequisite.code]

/-- Instance of C8: with the camera detached the code is 3. -/
theorem C8_renderFrame_codes_witness :
    (({ Renderer.sample with camera := none } : Renderer).renderFrame renderWorldExample).1 = 3 :=
  (C8_renderFrame_codes renderWorldExample
    ({ Renderer.sample with camera := none } : Renderer)).2.2.2.2.1 rfl rfl rfl

/-! ## World::commit: further lemmas -/

/-- A commit that returns normally ends in `commitEnd`, applied to the state the loop
leaves. -/
theorem World.commit_success_state (w : World) (h : w.commit.error = none) :
    w.commitBegin.commitLoop.error = none ∧
    w.commit.state =
      w.commitBegin.commitLoop.state.w.commitEnd (sceneFlagsOf w.params)
        w.commitBegin.commitLoop.state.numInvertedClippers := by
  unfold World.commit at h ⊢
  cases hl : w.commitBegin.commitLoop.error with
  | some msg => simp [hl, Outcome.throw] at h
  | none => simp [Outcome.ok, hl]

/-- Placing instances without any category changes nothing. -/
theorem LoopView.place_of_no_category (v : LoopView) (insts : List Instance)
    (h : insts.any Instance.hasAny = false) : v.place insts = v := by
  have hall : ∀ i ∈ insts, i.hasGeometries = false ∧ i.hasVolumes = false ∧
      i.hasClippers = false := by
    intro i hi
    have := List.any_eq_false.mp h i hi
    simpa [Instance.hasAny, not_or, and_assoc] using this
  have hg : insts.filter Instance.hasGeometries = [] :=
    List.filter_eq_nil_iff.mpr (fun i hi => by simp [(hall i hi).1])
  have hv : insts.filter Instance.hasVolumes = [] :=
    List.filter_eq_nil_iff.mpr (fun i hi => by simp [(hall i hi).2.1])
  have hc : insts.filter Instance.hasClippers = [] :=
    List.filter_eq_nil_iff.mpr (fun i hi => by simp [(hall i hi).2.2])
  have ag : insts.any Instance.hasGeometries = false :=
    List.any_eq_false.mpr (fun i hi => by simp [(hall i hi).1])
  have av : insts.any Instance.hasVolumes = false :=
    List.any_eq_false.mpr (fun i hi => by simp [(hall i hi).2.1])
  have ac : insts.any Instance.hasClippers = false :=
    List.any_eq_false.mpr (fun i hi => by simp [(hall i hi).2.2])
  cases v
  simp [LoopView.place, hg, hv, hc, ag, av, ac]

/-- Every commit that returns normally, with a valid device or not, is summarised by
placing the instance list into the empty start state. -/
theorem World.commit_success_view (w : World) (h : w.commit.error = none) :
    w.commit.state.view = (LoopView.start w.embreeDevice).place w.instanceList := by
  cases hd : w.embreeDevice with
  | some d => exact (w.commit_valid d hd).2
  | none =>
    have he := (w.commit_invalid hd).1
    have hany : w.instanceList.any Instance.hasAny = false := by
      by_contra hc
      have hc1 : w.instanceList.any Instance.hasAny = true := by simpa using hc
      rw [hc1] at he
      simp [h] at he
    rw [LoopView.place_of_no_category _ _ hany]
    obtain ⟨_, hs⟩ := w.commit_success_state h
    have hloop : w.commitBegin.commitLoop.state = ⟨w.commitBegin, 0⟩ := by
      unfold World.commitLoop
      have hb : w.commitBegin.instances = w.params.instance_ := by simp [World.commitBegin]
      rw [hb]
      cases hi : w.params.instance_ with
      | none => rfl
      | some insts =>
        have hd0 : (CommitLoop.mk w.commitBegin 0).w.embreeDevice = none := by
          simp [World.commitBegin, hd]
        have hany1 : insts.any Instance.hasAny = false := by
          simpa [World.instanceList, hi] using hany
        exact (commitInstances_invalid insts ⟨w.commitBegin, 0⟩ hd0).2.2.2.2 hany1
    rw [hs, hloop]
    simp [World.view, CommitLoop.view, World.commitEnd, World.commitBegin, LoopView.start,
      setFlagsAndCommit, hd]

/-- After a commit that returned normally `ispc::World_set` has been called. -/
theorem World.commit_success_ispcWorld (w : World) (h : w.commit.error = none) :
    ∃ iw : ISPCWorld, w.commit.state.ispcWorld = some iw ∧
      iw.numInvertedClippers = w.commit.state.view.numInvertedClippers ∧
      iw.embreeSceneHandleGeometries = w.commit.state.embreeSceneHandleGeometries ∧
      iw.embreeSceneHandleVolumes = w.commit.state.embreeSceneHandleVolumes ∧
      iw.embreeSceneHandleClippers = w.commit.state.embreeSceneHandleClippers := by
  obtain ⟨_, hs⟩ := w.commit_success_state h
  rw [hs]
  exact ⟨_, rfl, rfl, rfl, rfl, rfl⟩

/-- The flags that a commit which returned normally gave to the three structures: the
flags of a present structure, `none` for an absent one. -/
theorem World.commit_success_flags (w : World) (h : w.commit.error = none) :
    w.commit.state.embreeSceneHandleGeometries.map RTCSceneObj.flags =
      w.commit.state.embreeSceneHandleGeometries.map (fun _ => sceneFlagsOf w.params) ∧
    w.commit.state.embreeSceneHandleVolumes.map RTCSceneObj.flags =
      w.commit.state.embreeSceneHandleVolumes.map (fun _ => sceneFlagsOf w.params) ∧
    w.commit.state.embreeSceneHandleClippers.map RTCSceneObj.flags =
      w.commit.state.embreeSceneHandleClippers.map
        (fun _ => sceneFlagsOf w.params ||| RTC_SCENE_FLAG_CONTEXT_FILTER_FUNCTION) ∧
    w.commit.state.embreeSceneHandleGeometries.map RTCSceneObj.committed =
      w.commit.state.embreeSceneHandleGeometries.map (fun _ => true) ∧
    w.commit.state.embreeSceneHandleVolumes.map RTCSceneObj.committed =
      w.commit.state.embreeSceneHandleVolumes.map (fun _ => true) ∧
    w.commit.state.embreeSceneHandleClippers.map RTCSceneObj.committed =
      w.commit.state.embreeSceneHandleClippers.map (fun _ => true) := by
  obtain ⟨_, hs⟩ := w.commit_success_state h
  rw [hs]
  simp only [World.commitEnd]
  refine ⟨?_, ?_, ?_, ?_, ?_, ?_⟩
  · cases w.commitBegin.commitLoop.state.w.embreeSceneHandleGeometries <;> rfl
  · cases w.commitBegin.commitLoop.state.w.embreeSceneHandleVolumes <;> rfl
  · cases w.commitBegin.commitLoop.state.w.embreeSceneHandleClippers <;> rfl
  · cases w.commitBegin.commitLoop.state.w.embreeSceneHandleGeometries <;> rfl
  · cases w.commitBegin.commitLoop.state.w.embreeSceneHandleVolumes <;> rfl
  · cases w.commitBegin.commitLoop.state.w.embreeSceneHandleClippers <;> rfl

theorem any_eq_of_perm {insts insts' : List Instance} (hp : insts.Perm insts')
    (p : Instance → Bool) : insts.any p = insts'.any p := by
  rw [Bool.eq_iff_iff]
  simp only [List.any_eq_true]
  exact ⟨fun ⟨x, hx, hq⟩ => ⟨x, hp.mem_iff.mp hx, hq⟩,
    fun ⟨x, hx, hq⟩ => ⟨x, hp.mem_iff.mpr hx, hq⟩⟩

theorem map_const_eq_of_isSome_eq {a b : RTCScene} (f : Nat) (h : a.isSome = b.isSome) :
    a.map (fun _ => f) = b.map (fun _ => f) := by
  cases a <;> cases b <;> simp_all

/-- Placing a permuted list gives the same presence flags and count, and placement lists
that are permutations of each other. -/
theorem LoopView.place_perm (v : LoopView) {insts insts' : List Instance}
    (hp : insts.Perm insts') :
    (v.place insts).hasGeometries = (v.place insts').hasGeometries ∧
    (v.place insts).hasVolumes = (v.place insts').hasVolumes ∧
    (v.place insts).hasClippers = (v.place insts').hasClippers ∧
    (v.place insts).geometriesInstIEs.Perm (v.place insts').geometriesInstIEs ∧
    (v.place insts).volumesInstIEs.Perm (v.place insts').volumesInstIEs ∧
    (v.place insts).clippersInstIEs.Perm (v.place insts').clippersInstIEs ∧
    (v.place insts).numInvertedClippers = (v.place insts').numInvertedClippers := by
  simp only [LoopView.place]
  refine ⟨?_, ?_, ?_, ?_, ?_, ?_, ?_⟩
  · rw [any_eq_of_perm hp]
  · rw [any_eq_of_perm hp]
  · rw [any_eq_of_perm hp]
  · exact List.Perm.append_left _ ((hp.filter _).map _)
  · exact List.Perm.append_left _ ((hp.filter _).map _)
  · exact List.Perm.append_left _ ((hp.filter _).map _)
  · rw [((hp.filter Instance.hasClippers).map (fun i => i.group.numInvertedClippers)).sum_eq]

/-! ## World::commit: order, flags and the inverted-clipper count -/

/-- C11, as stated, fails for commits that throw: with a null device the list
`[a, b]`, where `a` has surfaces and `b` has volumes, leaves `geometriesInstIEs = [1]`,
while its permutation `[b, a]` leaves `geometriesInstIEs = []`; the two placement lists
are not equal as multisets. -/
theorem C11_failed_commits_depend_on_order :
    List.Perm [(⟨1, ⟨some 10, none, none, 0⟩, 0⟩ : Instance), ⟨2, ⟨none, some 11, none, 0⟩, 0⟩]
      [⟨2, ⟨none, some 11, none, 0⟩, 0⟩, ⟨1, ⟨some 10, none, none, 0⟩, 0⟩] ∧
    (World.fresh.withInstanceList
        [⟨1, ⟨some 10, none, none, 0⟩, 0⟩, ⟨2, ⟨none, some 11, none, 0⟩, 0⟩]).commit.state.geometriesInstIEs
      = [1] ∧
    (World.fresh.withInstanceList
        [⟨2, ⟨none, some 11, none, 0⟩, 0⟩, ⟨1, ⟨some 10, none, none, 0⟩, 0⟩]).commit.state.geometriesInstIEs
      = [] ∧
    ¬ List.Perm
      (World.fresh.withInstanceList
        [⟨1, ⟨some 10, none, none, 0⟩, 0⟩, ⟨2, ⟨none, some 11, none, 0⟩, 0⟩]).commit.state.geometriesInstIEs
      (World.fresh.withInstanceList
        [⟨2, ⟨none, some 11, none, 0⟩, 0⟩, ⟨1, ⟨some 10, none, none, 0⟩, 0⟩]).commit.state.geometriesInstIEs := by
  refine ⟨List.Perm.swap _ _ [], by decide, by decide, ?_⟩
  intro h
  have hl := h.length_eq
  revert hl
  decide

/-- C11, amended: the result of a `World::commit` that returns normally does not depend on
the order of the instance list.  For an instance list and a permutation of it the two
commits fail or return alike, and when they return they agree on which of the three
structures are present, on each category's placement list as a multiset, on the
inverted-clipper count given to `ispc::World_set`, and on the flags given to each
structure. -/
theorem C11_commit_order_irrelevant (w : World) (insts insts' : List Instance)
    (hp : insts.Perm insts') :
    (w.withInstanceList insts).commit.error = (w.withInstanceList insts').commit.error ∧
    ((w.withInstanceList insts).commit.error = none →
      ((w.withInstanceList insts).commit.state.embreeSceneHandleGeometries.isSome =
          (w.withInstanceList insts').commit.state.embreeSceneHandleGeometries.isSome ∧
        (w.withInstanceList insts).commit.state.embreeSceneHandleVolumes.isSome =
          (w.withInstanceList insts').commit.state.embreeSceneHandleVolumes.isSome ∧
        (w.withInstanceList insts).commit.state.embreeSceneHandleClippers.isSome =
          (w.withInstanceList insts').commit.state.embreeSceneHandleClippers.isSome) ∧
      ((w.withInstanceList insts).commit.state.geometriesInstIEs.Perm
          (w.withInstanceList insts').commit.state.geometriesInstIEs ∧
        (w.withInstanceList insts).commit.state.volumesInstIEs.Perm
          (w.withInstanceList insts').commit.state.volumesInstIEs ∧
        (w.withInstanceList insts).commit.state.clippersInstIEs.Perm
          (w.withInstanceList insts').commit.state.clippersInstIEs) ∧
      (w.withInstanceList insts).commit.state.ispcWorld.map ISPCWorld.numInvertedClippers =
        (w.withInstanceList insts').commit.state.ispcWorld.map ISPCWorld.numInvertedClippers ∧
      ((w.withInstanceList insts).commit.state.embreeSceneHandleGeometries.map RTCSceneObj.flags =
          (w.withInstanceList insts').commit.state.embreeSceneHandleGeometries.map
            RTCSceneObj.flags ∧
        (w.withInstanceList insts).commit.state.embreeSceneHandleVolumes.map RTCSceneObj.flags =
          (w.withInstanceList insts').commit.state.embreeSceneHandleVolumes.map
            RTCSceneObj.flags ∧
        (w.withInstanceList insts).commit.state.embreeSceneHandleClippers.map RTCSceneObj.flags =
          (w.withInstanceList insts').commit.state.embreeSceneHandleClippers.map
            RTCSceneObj.flags)) := by
  have hl1 : (w.withInstanceList insts).instanceList = insts := rfl
  have hl2 : (w.withInstanceList insts').instanceList = insts' := rfl
  have herr : (w.withInstanceList insts).commit.error =
      (w.withInstanceList insts').commit.error := by
    cases hd : w.embreeDevice with
    | some d =>
      rw [((w.withInstanceList insts).commit_valid d hd).1,
        ((w.withInstanceList insts').commit_valid d hd).1]
    | none =>
      rw [((w.withInstanceList insts).commit_invalid hd).1,
        ((w.withInstanceList insts').commit_invalid hd).1, hl1, hl2,
        any_eq_of_perm hp Instance.hasAny]
  refine ⟨herr, fun h1 => ?_⟩
  have h2 : (w.withInstanceList insts').commit.error = none := herr ▸ h1
  have v1 := (w.withInstanceList insts).commit_success_view h1
  have v2 := (w.withInstanceList insts').commit_success_view h2
  rw [hl1] at v1
  rw [hl2] at v2
  have hdev : (w.withInstanceList insts).embreeDevice = (w.withInstanceList insts').embreeDevice :=
    rfl
  rw [← hdev] at v2
  obtain ⟨pg, pv, pc, lg, lv, lc, pn⟩ :=
    LoopView.place_perm (LoopView.start (w.withInstanceList insts).embreeDevice) hp
  rw [← v1, ← v2] at pg pv pc lg lv lc pn
  obtain ⟨iw1, e1, n1, _⟩ := (w.withInstanceList insts).commit_success_ispcWorld h1
  obtain ⟨iw2, e2, n2, _⟩ := (w.withInstanceList insts').commit_success_ispcWorld h2
  obtain ⟨f1, f2, f3, _⟩ := (w.withInstanceList insts).commit_success_flags h1
  obtain ⟨g1, g2, g3, _⟩ := (w.withInstanceList insts').commit_success_flags h2
  have hflags : sceneFlagsOf (w.withInstanceList insts).params =
      sceneFlagsOf (w.withInstanceList insts').params := rfl
  refine ⟨⟨pg, pv, pc⟩, ⟨lg, lv, lc⟩, ?_, ?_, ?_, ?_⟩
  · rw [e1, e2, Option.map_some', Option.map_some', n1, n2, pn]
  · rw [f1, g1, hflags]; exact map_const_eq_of_isSome_eq _ pg
  · rw [f2, g2, hflags]; exact map_const_eq_of_isSome_eq _ pv
  · rw [f3, g3, hflags]; exact map_const_eq_of_isSome_eq _ pc

/-- Instance of C11: two instances committed in both orders. -/
theorem C11_commit_order_irrelevant_witness :
    ((World.fresh.setDevice (some 7)).withInstanceList
        [⟨1, ⟨some 10, none, some 12, 2⟩, 0⟩, ⟨2, ⟨some 11, none, none, 0⟩, 0⟩]).commit.state.geometriesInstIEs.Perm
      ((World.fresh.setDevice (some 7)).withInstanceList
        [⟨2, ⟨some 11, none, none, 0⟩, 0⟩, ⟨1, ⟨some 10, none, some 12, 2⟩, 0⟩]).commit.state.geometriesInstIEs :=
  ((C11_commit_order_irrelevant (World.fresh.setDevice (some 7))
      [⟨1, ⟨some 10, none, some 12, 2⟩, 0⟩, ⟨2, ⟨some 11, none, none, 0⟩, 0⟩]
      [⟨2, ⟨some 11, none, none, 0⟩, 0⟩, ⟨1, ⟨some 10, none, some 12, 2⟩, 0⟩]
      (List.Perm.swap _ _ [])).2 (by decide)).2.1.1

/-- C12: in `World::commit` the scene flags are the bitwise OR of `RTC_SCENE_FLAG_DYNAMIC`,
`RTC_SCENE_FLAG_COMPACT` and `RTC_SCENE_FLAG_ROBUST` for exactly those of `dynamicScene`,
`compactMode`, `robustMode` that are true (an unset parameter counts as false): each of
the three bits is set exactly when its parameter is true and no other bit is set.  After a
commit that returned normally every present surface and volume structure carries exactly
that flag set, and a present clipper structure carries it ORed with
`RTC_SCENE_FLAG_CONTEXT_FILTER_FUNCTION`. -/
theorem C12_scene_flags_applied (w : World) (h : w.commit.error = none) :
    (sceneFlagsOf w.params =
        ((if w.params.dynamicScene.getD false then RTC_SCENE_FLAG_DYNAMIC else 0) |||
          (if w.params.compactMode.getD false then RTC_SCENE_FLAG_COMPACT else 0)) |||
          (if w.params.robustMode.getD false then RTC_SCENE_FLAG_ROBUST else 0) ∧
      (sceneFlagsOf w.params &&& RTC_SCENE_FLAG_DYNAMIC ≠ 0 ↔
        w.params.dynamicScene = some true) ∧
      (sceneFlagsOf w.params &&& RTC_SCENE_FLAG_COMPACT ≠ 0 ↔
        w.params.compactMode = some true) ∧
      (sceneFlagsOf w.params &&& RTC_SCENE_FLAG_ROBUST ≠ 0 ↔
        w.params.robustMode = some true) ∧
      sceneFlagsOf w.params &&& RTC_SCENE_FLAG_CONTEXT_FILTER_FUNCTION = 0 ∧
      sceneFlagsOf w.params < 8) ∧
    (∀ s : RTCSceneObj, w.commit.state.embreeSceneHandleGeometries = some s →
      s.flags = sceneFlagsOf w.params) ∧
    (∀ s : RTCSceneObj, w.commit.state.embreeSceneHandleVolumes = some s →
      s.flags = sceneFlagsOf w.params) ∧
    (∀ s : RTCSceneObj, w.commit.state.embreeSceneHandleClippers = some s →
      s.flags = sceneFlagsOf w.params ||| RTC_SCENE_FLAG_CONTEXT_FILTER_FUNCTION ∧
      s.flags &&& RTC_SCENE_FLAG_CONTEXT_FILTER_FUNCTION ≠ 0) := by
  obtain ⟨f1, f2, f3, _⟩ := w.commit_success_flags h
  refine ⟨?_, ?_, ?_, ?_⟩
  · unfold sceneFlagsOf RTC_SCENE_FLAG_DYNAMIC RTC_SCENE_FLAG_COMPACT RTC_SCENE_FLAG_ROBUST
      RTC_SCENE_FLAG_CONTEXT_FILTER_FUNCTION
    rcases w.params.dynamicScene with _ | _ | _ <;>
      rcases w.params.compactMode with _ | _ | _ <;>
      rcases w.params.robustMode with _ | _ | _ <;> decide
  · intro s hs
    rw [hs] at f1
    simpa using f1
  · intro s hs
    rw [hs] at f2
    simpa using f2
  · intro s hs
    rw [hs] at f3
    have hf : s.flags = sceneFlagsOf w.params ||| RTC_SCENE_FLAG_CONTEXT_FILTER_FUNCTION := by
      simpa using f3
    refine ⟨hf, ?_⟩
    rw [hf]
    unfold sceneFlagsOf RTC_SCENE_FLAG_DYNAMIC RTC_SCENE_FLAG_COMPACT RTC_SCENE_FLAG_ROBUST
      RTC_SCENE_FLAG_CONTEXT_FILTER_FUNCTION
    rcases w.params.dynamicScene with _ | _ | _ <;>
      rcases w.params.compactMode with _ | _ | _ <;>
      rcases w.params.robustMode with _ | _ | _ <;> decide

/-- Instance of C12: `dynamicScene` and `robustMode` set, one instance with surfaces and
clippers; the surface structure gets flags 5, the clipper structure 13. -/
theorem C12_scene_flags_applied_witness :
    (World.flagsExample.commit.state.embreeSceneHandleGeometries =
        some ⟨0, [⟨1, some 10, some 0⟩], 5, true⟩ ∧
      (⟨0, [⟨1, some 10, some 0⟩], 5, true⟩ : RTCSceneObj).flags =
        sceneFlagsOf World.flagsExample.params) ∧
    (World.flagsExample.commit.state.embreeSceneHandleClippers =
        some ⟨2, [⟨3, some 12, some 0⟩], 13, true⟩ ∧
      (⟨2, [⟨3, some 12, some 0⟩], 13, true⟩ : RTCSceneObj).flags =
        sceneFlagsOf World.flagsExample.params ||| RTC_SCENE_FLAG_CONTEXT_FILTER_FUNCTION) :=
  ⟨⟨by decide,
    (C12_scene_flags_applied World.flagsExample (by decide)).2.1 _ (by decide)⟩,
   ⟨by decide,
    ((C12_scene_flags_applied World.flagsExample (by decide)).2.2.2 _ (by decide)).1⟩⟩

/-- C18: after a `World::commit` that returned normally, the inverted-clipper count given
to `ispc::World_set` is the sum, over the instance list with multiplicity, of
`group.numInvertedClippers` for exactly the instances whose Group has a clipper scene;
an instance without a clipper scene contributes 0 whatever its `numInvertedClippers`, and
the count is 0 for an empty instance list. -/
theorem C18_inverted_clipper_count (w : World) (h : w.commit.error = none) :
    ∃ iw : ISPCWorld, w.commit.state.ispcWorld = some iw ∧
      iw.numInvertedClippers =
        ((w.instanceList.filter (fun i => i.group.sceneClippers.isSome)).map
          (fun i => i.group.numInvertedClippers)).sum ∧
      iw.numInvertedClippers =
        (w.instanceList.map
          (fun i => if i.group.sceneClippers.isSome then i.group.numInvertedClippers else 0)).sum ∧
      (w.instanceList = [] → iw.numInvertedClippers = 0) := by
  obtain ⟨iw, e, n, _⟩ := w.commit_success_ispcWorld h
  have hv := congrArg LoopView.numInvertedClippers (w.commit_success_view h)
  have hsum : iw.numInvertedClippers =
      ((w.instanceList.filter (fun i => i.group.sceneClippers.isSome)).map
        (fun i => i.group.numInvertedClippers)).sum := by
    rw [n, hv]
    simp [LoopView.place, LoopView.start]
    rfl
  have hfilter : ∀ l : List Instance,
      ((l.filter (fun i => i.group.sceneClippers.isSome)).map
        (fun i => i.group.numInvertedClippers)).sum =
      (l.map (fun i =>
        if i.group.sceneClippers.isSome then i.group.numInvertedClippers else 0)).sum := by
    intro l
    induction l with
    | nil => rfl
    | cons a t ih =>
      by_cases ha : a.group.sceneClippers.isSome = true
      · simp [List.filter_cons, ha, ih]
      · simp [List.filter_cons, ha, ih]
  refine ⟨iw, e, hsum, ?_, ?_⟩
  · rw [hsum, hfilter]
  · intro hnil
    rw [hsum, hnil]
    rfl

/-- Instance of C18: clipper instance (count 2) listed twice, one instance without a
clipper scene whose own count is 5; the total is 4. -/
theorem C18_inverted_clipper_count_witness :
    (World.withInstances (some 7)
        [⟨1, ⟨none, none, some 12, 2⟩, 0⟩, ⟨2, ⟨some 10, none, none, 5⟩, 0⟩,
         ⟨1, ⟨none, none, some 12, 2⟩, 0⟩]).commit.state.ispcWorld.map
        ISPCWorld.numInvertedClippers = some 4 := by
  obtain ⟨iw, e, n, _⟩ := C18_inverted_clipper_count
    (World.withInstances (some 7)
        [⟨1, ⟨none, none, some 12, 2⟩, 0⟩, ⟨2, ⟨some 10, none, none, 5⟩, 0⟩,
         ⟨1, ⟨none, none, some 12, 2⟩, 0⟩]) (by decide)
  rw [e, Option.map_some', n]
  decide

/-! ## World::commit: rebuilding on every commit -/

theorem sceneBuiltSince_mono {lo next next' : Nat} {scene : RTCScene} {l : List Nat}
    (h : sceneBuiltSince lo next scene l) (hn : next ≤ next') :
    sceneBuiltSince lo next' scene l := by
  unfold sceneBuiltSince at h ⊢
  cases scene with
  | none => exact h
  | some s => exact ⟨h.1, by omega, h.2.2⟩

/-- What `addGeometryInstance` does with a valid device to a handle that satisfies the
loop invariant. -/
theorem addGeometryInstance_built (rtc : Embree) (scene : RTCScene) (instScene : Nat)
    (inst : Instance) (d : RTCDevice) (lo : Nat) (l : List Nat) (hlo : lo ≤ rtc.nextId)
    (h : sceneBuiltSince lo rtc.nextId scene l) :
    ∃ rtc' scene', addGeometryInstance rtc scene instScene inst (some d) =
        Except.ok (rtc', scene') ∧
      rtc'.releasedScenes = rtc.releasedScenes ∧ rtc.nextId < rtc'.nextId ∧
      scene'.isSome = true ∧
      sceneBuiltSince lo rtc'.nextId scene' (l ++ [inst.ie]) := by
  unfold addGeometryInstance
  cases scene with
  | none =>
    refine ⟨_, _, rfl, rfl, ?_, rfl, ?_⟩
    · simp only [rtcNewScene, rtcNewInstanceGeometry]
      omega
    · simp only [sceneBuiltSince] at h ⊢
      simp [rtcNewScene, rtcNewInstanceGeometry, h]
      omega
  | some s =>
    refine ⟨_, _, rfl, rfl, ?_, rfl, ?_⟩
    · simp [rtcNewInstanceGeometry]
    · simp only [sceneBuiltSince] at h ⊢
      simp [rtcNewInstanceGeometry, h]
      omega

theorem commitGeometries_inv (inst : Instance) (st : CommitLoop) (lo : Nat) (rel : List Nat)
    (p : WorldParams) (d : RTCDevice) (hI : LoopInv lo rel p d st) :
    (commitGeometries inst st).error = none ∧
    LoopInv lo rel p d (commitGeometries inst st).state := by
  unfold commitGeometries
  cases hg : inst.group.sceneGeometries with
  | none => exact ⟨rfl, hI⟩
  | some instScene =>
    obtain ⟨rtc', scene', e, r1, r2, _, r4⟩ :=
      addGeometryInstance_built st.w.rtc st.w.embreeSceneHandleGeometries instScene inst d lo
        st.w.geometriesInstIEs hI.supply hI.geometries
    have hd := hI.device
    simp only [hd, e, Outcome.ok]
    exact ⟨trivial,
      { device := rfl, params := hI.params, released := r1.trans hI.released,
        supply := le_trans hI.supply (le_of_lt r2), geometries := r4,
        volumes := sceneBuiltSince_mono hI.volumes (le_of_lt r2),
        clippers := sceneBuiltSince_mono hI.clippers (le_of_lt r2) }⟩

theorem commitVolumes_inv (inst : Instance) (st : CommitLoop) (lo : Nat) (rel : List Nat)
    (p : WorldParams) (d : RTCDevice) (hI : LoopInv lo rel p d st) :
    (commitVolumes inst st).error = none ∧
    LoopInv lo rel p d (commitVolumes inst st).state := by
  unfold commitVolumes
  cases hg : inst.group.sceneVolumes with
  | none => exact ⟨rfl, hI⟩
  | some instScene =>
    obtain ⟨rtc', scene', e, r1, r2, _, r4⟩ :=
      addGeometryInstance_built st.w.rtc st.w.embreeSceneHandleVolumes instScene inst d lo
        st.w.volumesInstIEs hI.supply hI.volumes
    have hd := hI.device
    simp only [hd, e, Outcome.ok]
    exact ⟨trivial,
      { device := rfl, params := hI.params, released := r1.trans hI.released,
        supply := le_trans hI.supply (le_of_lt r2),
        geometries := sceneBuiltSince_mono hI.geometries (le_of_lt r2),
        volumes := r4,
        clippers := sceneBuiltSince_mono hI.clippers (le_of_lt r2) }⟩

theorem commitClippers_inv (inst : Instance) (st : CommitLoop) (lo : Nat) (rel : List Nat)
    (p : WorldParams) (d : RTCDevice) (hI : LoopInv lo rel p d st) :
    (commitClippers inst st).error = none ∧
    LoopInv lo rel p d (commitClippers inst st).state := by
  unfold commitClippers
  cases hg : inst.group.sceneClippers with
  | none => exact ⟨rfl, hI⟩
  | some instScene =>
    obtain ⟨rtc', scene', e, r1, r2, _, r4⟩ :=
      addGeometryInstance_built st.w.rtc st.w.embreeSceneHandleClippers instScene inst d lo
        st.w.clippersInstIEs hI.supply hI.clippers
    have hd := hI.device
    simp only [hd, e, Outcome.ok]
    exact ⟨trivial,
      { device := rfl, params := hI.params, released := r1.trans hI.released,
        supply := le_trans hI.supply (le_of_lt r2),
        geometries := sceneBuiltSince_mono hI.geometries (le_of_lt r2),
        volumes := sceneBuiltSince_mono hI.volumes (le_of_lt r2),
        clippers := r4 }⟩

/-- The instance loop keeps the loop invariant. -/
theorem commitInstances_inv (insts : List Instance) (st : CommitLoop) (lo : Nat)
    (rel : List Nat) (p : WorldParams) (d : RTCDevice) (hI : LoopInv lo rel p d st) :
    (commitInstances insts st).error = none ∧
    LoopInv lo rel p d (commitInstances insts st).state := by
  induction insts generalizing st with
  | nil => exact ⟨rfl, hI⟩
  | cons inst rest ih =>
    obtain ⟨g1, g2⟩ := commitGeometries_inv inst st lo rel p d hI
    obtain ⟨v1, v2⟩ := commitVolumes_inv inst _ lo rel p d g2
    obtain ⟨c1, c2⟩ := commitClippers_inv inst _ lo rel p d v2
    have hstep : (commitInstance inst st).error = none ∧
        LoopInv lo rel p d (commitInstance inst st).state := by
      simp only [commitInstance, Outcome.andThen, g1, v1]
      exact ⟨c1, c2⟩
    obtain ⟨k1, k2⟩ := ih _ hstep.2
    simp only [commitInstances, Outcome.andThen, hstep.1]
    exact ⟨k1, k2⟩

theorem World.commitBegin_inv (w : World) (d : RTCDevice) (hd : w.embreeDevice = some d) :
    LoopInv w.rtc.nextId (w.presentSceneIds ++ w.rtc.releasedScenes) w.params d
      ⟨w.commitBegin, 0⟩ := by
  have hn : w.commitBegin.rtc.nextId = w.rtc.nextId ∧
      w.commitBegin.rtc.releasedScenes = w.presentSceneIds ++ w.rtc.releasedScenes := by
    unfold World.commitBegin World.presentSceneIds freeAndNullifyEmbreeScene
    cases w.embreeSceneHandleGeometries <;> cases w.embreeSceneHandleVolumes <;>
      cases w.embreeSceneHandleClippers <;> simp
  exact
    { device := by simp [World.commitBegin, hd]
      params := by simp [World.commitBegin]
      released := hn.2
      supply := le_of_eq hn.1.symm
      geometries := by simp [World.commitBegin, sceneBuiltSince]
      volumes := by simp [World.commitBegin, sceneBuiltSince]
      clippers := by simp [World.commitBegin, sceneBuiltSince] }

theorem setFlagsAndCommit_built {lo next : Nat} {scene : RTCScene} {l : List Nat}
    (flags : Nat) (h : sceneBuiltSince lo next scene l) :
    sceneBuiltSince lo next (setFlagsAndCommit scene flags) l := by
  cases scene with
  | none => exact h
  | some s => exact h

/-- With a valid device a commit releases every structure the world had and builds each
structure it ends with anew: one geometry per placement, under a fresh id. -/
theorem World.commit_rebuilds (w : World) (d : RTCDevice) (hd : w.embreeDevice = some d) :
    w.commit.error = none ∧
    w.commit.state.embreeDevice = some d ∧
    w.commit.state.params = w.params ∧
    w.commit.state.rtc.releasedScenes = w.presentSceneIds ++ w.rtc.releasedScenes ∧
    w.rtc.nextId ≤ w.commit.state.rtc.nextId ∧
    sceneBuiltSince w.rtc.nextId w.commit.state.rtc.nextId
      w.commit.state.embreeSceneHandleGeometries w.commit.state.geometriesInstIEs ∧
    sceneBuiltSince w.rtc.nextId w.commit.state.rtc.nextId
      w.commit.state.embreeSceneHandleVolumes w.commit.state.volumesInstIEs ∧
    sceneBuiltSince w.rtc.nextId w.commit.state.rtc.nextId
      w.commit.state.embreeSceneHandleClippers w.commit.state.clippersInstIEs := by
  have h0 := (w.commit_valid d hd).1
  obtain ⟨_, hs⟩ := w.commit_success_state h0
  have hI : LoopInv w.rtc.nextId (w.presentSceneIds ++ w.rtc.releasedScenes) w.params d
      w.commitBegin.commitLoop.state := by
    unfold World.commitLoop
    cases hi : w.commitBegin.instances with
    | none => exact w.commitBegin_inv d hd
    | some insts => exact (commitInstances_inv insts _ _ _ _ d (w.commitBegin_inv d hd)).2
  rw [hs]
  refine ⟨h0, ?_, ?_, ?_, ?_, ?_, ?_, ?_⟩
  · simpa [World.commitEnd] using hI.device
  · simpa [World.commitEnd] using hI.params
  · simpa [World.commitEnd] using hI.released
  · simpa [World.commitEnd] using hI.supply
  · simpa [World.commitEnd] using setFlagsAndCommit_built _ hI.geometries
  · simpa [World.commitEnd] using setFlagsAndCommit_built _ hI.volumes
  · simpa [World.commitEnd] using setFlagsAndCommit_built _ hI.clippers

/-- C13, as stated, fails: committing the unmodified world `surfaceExample` a second time
releases the surface structure of the first commit (scene 0), creates a new backend scene
(scene 2) and attaches a new placement to it. -/
theorem C13_second_commit_rebuilds :
    World.surfaceExample.commit.state.params = World.surfaceExample.params ∧
    World.surfaceExample.commit.state.rtc.releasedScenes = [] ∧
    World.surfaceExample.commit.state.commit.state.rtc.releasedScenes = [0] ∧
    World.surfaceExample.commit.state.embreeSceneHandleGeometries.map RTCSceneObj.id = some 0 ∧
    World.surfaceExample.commit.state.commit.state.embreeSceneHandleGeometries.map
      RTCSceneObj.id = some 2 ∧
    World.surfaceExample.commit.state.commit.state.embreeSceneHandleGeometries.map
      (fun s => s.geometries.map RTCInstanceGeometry.id) = some [3] ∧
    World.surfaceExample.commit.state.commit.state.embreeSceneHandleGeometries ≠
      World.surfaceExample.commit.state.embreeSceneHandleGeometries := by
  decide

/-- C13, amended: with a valid device, committing an unmodified World a second time (same
instance list, Groups, transforms and parameters) rebuilds everything.  The second commit
returns normally with the same placement lists and the same structures present as the
first; it releases every structure the first commit built, and every structure it ends
with is a new backend scene (its id is larger than that of every structure of the first
commit) holding one newly attached placement per entry of its placement list. -/
theorem C13_second_commit_rebuilds_all (w : World) (d : RTCDevice)
    (hd : w.embreeDevice = some d) :
    w.commit.state.commit.error = none ∧
    (w.commit.state.commit.state.geometriesInstIEs = w.commit.state.geometriesInstIEs ∧
      w.commit.state.commit.state.volumesInstIEs = w.commit.state.volumesInstIEs ∧
      w.commit.state.commit.state.clippersInstIEs = w.commit.state.clippersInstIEs) ∧
    (w.commit.state.commit.state.embreeSceneHandleGeometries.isSome =
        w.commit.state.embreeSceneHandleGeometries.isSome ∧
      w.commit.state.commit.state.embreeSceneHandleVolumes.isSome =
        w.commit.state.embreeSceneHandleVolumes.isSome ∧
      w.commit.state.commit.state.embreeSceneHandleClippers.isSome =
        w.commit.state.embreeSceneHandleClippers.isSome) ∧
    w.commit.state.commit.state.rtc.releasedScenes =
      w.commit.state.presentSceneIds ++ w.commit.state.rtc.releasedScenes ∧
    (∀ s1 ∈ w.commit.state.embreeSceneHandleClippers.toList ++
          w.commit.state.embreeSceneHandleVolumes.toList ++
          w.commit.state.embreeSceneHandleGeometries.toList,
      ∀ s2 ∈ w.commit.state.commit.state.embreeSceneHandleClippers.toList ++
          w.commit.state.commit.state.embreeSceneHandleVolumes.toList ++
          w.commit.state.commit.state.embreeSceneHandleGeometries.toList,
      s1.id < s2.id) ∧
    (∀ s, w.commit.state.commit.state.embreeSceneHandleGeometries = some s →
      s.geometries.length = w.commit.state.commit.state.geometriesInstIEs.length) ∧
    (∀ s, w.commit.state.commit.state.embreeSceneHandleVolumes = some s →
      s.geometries.length = w.commit.state.commit.state.volumesInstIEs.length) ∧
    (∀ s, w.commit.state.commit.state.embreeSceneHandleClippers = some s →
      s.geometries.length = w.commit.state.commit.state.clippersInstIEs.length) := by
  obtain ⟨_, a1, a2, _, _, a5, a6, a7⟩ := w.commit_rebuilds d hd
  obtain ⟨b0, _, _, b3, _, b5, b6, b7⟩ := w.commit.state.commit_rebuilds d a1
  obtain ⟨_, lg, lv, lc, pg, pv, pc⟩ := w.commit_valid_fields d hd
  obtain ⟨_, lg', lv', lc', pg', pv', pc'⟩ := w.commit.state.commit_valid_fields d a1
  have hl : w.commit.state.instanceList = w.instanceList := by
    simp [World.instanceList, a2]
  rw [hl] at lg' lv' lc' pg' pv' pc'
  have hlt : ∀ {lo nxt nxt' : Nat} {h1 h2 : RTCScene} {l1 l2 : List Nat},
      sceneBuiltSince lo nxt h1 l1 → sceneBuiltSince nxt nxt' h2 l2 →
      ∀ s1 ∈ h1.toList, ∀ s2 ∈ h2.toList, s1.id < s2.id := by
    intro lo nxt nxt' h1 h2 l1 l2 k1 k2 s1 m1 s2 m2
    cases h1 with
    | none => simp at m1
    | some x =>
      cases h2 with
      | none => simp at m2
      | some y =>
        simp only [Option.toList, List.mem_singleton] at m1 m2
        subst m1 m2
        simp only [sceneBuiltSince] at k1 k2
        omega
  have hlen : ∀ {lo nxt : Nat} {h : RTCScene} {l : List Nat},
      sceneBuiltSince lo nxt h l → ∀ s, h = some s → s.geometries.length = l.length := by
    intro lo nxt h l k s hs
    subst hs
    exact k.2.2
  refine ⟨b0, ⟨by rw [lg', lg], by rw [lv', lv], by rw [lc', lc]⟩,
    ⟨by rw [pg', pg], by rw [pv', pv], by rw [pc', pc]⟩, b3, ?_, hlen b5, hlen b6, hlen b7⟩
  intro s1 m1 s2 m2
  simp only [List.mem_append] at m1 m2
  rcases m1 with (m1 | m1) | m1 <;> rcases m2 with (m2 | m2) | m2
  · exact hlt a7 b7 s1 m1 s2 m2
  · exact hlt a7 b6 s1 m1 s2 m2
  · exact hlt a7 b5 s1 m1 s2 m2
  · exact hlt a6 b7 s1 m1 s2 m2
  · exact hlt a6 b6 s1 m1 s2 m2
  · exact hlt a6 b5 s1 m1 s2 m2
  · exact hlt a5 b7 s1 m1 s2 m2
  · exact hlt a5 b6 s1 m1 s2 m2
  · exact hlt a5 b5 s1 m1 s2 m2

/-- Instance of the amended C13 at `surfaceExample`. -/
theorem C13_second_commit_rebuilds_all_witness :
    World.surfaceExample.commit.state.commit.error = none ∧
    World.surfaceExample.commit.state.commit.state.rtc.releasedScenes =
      World.surfaceExample.commit.state.presentSceneIds ++
        World.surfaceExample.commit.state.rtc.releasedScenes ∧
    (⟨2, [⟨3, some 10, some 0⟩], 0, true⟩ : RTCSceneObj).geometries.length =
      World.surfaceExample.commit.state.commit.state.geometriesInstIEs.length :=
  ⟨(C13_second_commit_rebuilds_all World.surfaceExample 7 rfl).1,
   (C13_second_commit_rebuilds_all World.surfaceExample 7 rfl).2.2.2.1,
   (C13_second_commit_rebuilds_all World.surfaceExample 7 rfl).2.2.2.2.2.1 _ (by decide)⟩

/-! ## Renderer: renderFrame effects and setWorld -/

/-- C16: `Renderer::renderFrame` adds exactly one to `accumID` (and makes exactly one
`ospRenderFrame` call) when it returns 0; when it returns a failure code it leaves the
whole renderer unchanged, `accumID` and the record of backend calls included, so no
render call is issued. -/
theorem C16_renderFrame_effect (worldRender : SgWorld → SgWorld) (r : Renderer) :
    ((r.renderFrame worldRender).1 = 0 →
      (r.renderFrame worldRender).2.accumID = r.accumID + 1 ∧
      (r.renderFrame worldRender).2.numRenders = r.numRenders + 1) ∧
    ((r.renderFrame worldRender).1 ≠ 0 →
      (r.renderFrame worldRender).2 = r ∧
      (r.renderFrame worldRender).2.accumID = r.accumID ∧
      (r.renderFrame worldRender).2.numRenders = r.numRenders) := by
  unfold Renderer.renderFrame
  cases hi : r.integrator with
  | none => simp
  | some i =>
    cases hf : r.frameBuffer with
    | none => simp
    | some f =>
      cases hc : r.camera with
      | none => simp
      | some c =>
        cases hw : r.world with
        | none => simp
        | some w =>
          dsimp only
          cases hm : w.ospModel <;>
            simp [Renderer.call, Renderer.numRenders, List.countP_append, List.countP_cons]

/-- Instance of C16: a successful render of the sample renderer, and a failing one with
the world detached. -/
theorem C16_renderFrame_effect_witness :
    ((Renderer.sample.renderFrame renderWorldExample).2.accumID = Renderer.sample.accumID + 1 ∧
      (Renderer.sample.renderFrame renderWorldExample).2.numRenders =
        Renderer.sample.numRenders + 1) ∧
    (({ Renderer.sample with world := none } : Renderer).renderFrame renderWorldExample).2 =
      ({ Renderer.sample with world := none } : Renderer) :=
  ⟨(C16_renderFrame_effect renderWorldExample Renderer.sample).1 (by decide),
   ((C16_renderFrame_effect renderWorldExample
      ({ Renderer.sample with world := none } : Renderer)).2 (by decide)).1⟩

/-- C19 evaluated on the code: for a null argument `Renderer::setWorld` clears `allNodes`
and `uniqueNodes` and resets accumulation, and then its last statement reads
`world->nodes.size()` through the null pointer; only for a present world does it complete. -/
theorem C19_setWorld_null_dereferences (serialize : SgWorld → Bool → List Nat)
    (r : Renderer) :
    (r.setWorld serialize none).error = some "null pointer dereference" ∧
    (r.setWorld serialize none).state.world = none ∧
    (r.setWorld serialize none).state.allNodes = [] ∧
    (r.setWorld serialize none).state.uniqueNodes = [] ∧
    (r.setWorld serialize none).state.accumID = 0 ∧
    (∀ w : SgWorld, (r.setWorld serialize (some w)).error = none) := by
  have hreset : ∀ x : Renderer, x.resetAccumulation.world = x.world ∧
      x.resetAccumulation.allNodes = x.allNodes ∧
      x.resetAccumulation.uniqueNodes = x.uniqueNodes := by
    intro x
    unfold Renderer.resetAccumulation
    by_cases h : x.accumID = 0
    · simp [h]
    · cases hf : x.frameBuffer <;> simp [h, hf, Renderer.call]
  unfold Renderer.setWorld
  refine ⟨rfl, ?_, ?_, ?_, ?_, fun w => rfl⟩
  · simp only [Outcome.throw]; rw [(hreset _).1]
  · simp only [Outcome.throw]; rw [(hreset _).2.1]
  · simp only [Outcome.throw]; rw [(hreset _).2.2]
  · simp only [Outcome.throw]; exact (Renderer.resetAccumulation_spec _).1

/-! ## SunSkyLight: the sky image is written once per element -/

/-- Row-major enumeration: the indices `sx * y + x`, row by row, count up from 0. -/
theorem range_flatMap_rows (sx sy : Nat) :
    (List.range sy).flatMap (fun y => (List.range sx).map (fun x => sx * y + x)) =
      List.range (sx * sy) := by
  induction sy with
  | zero => simp
  | succ n ih =>
    rw [List.range_succ, List.flatMap_append, ih, Nat.mul_succ, List.range_add]
    simp

theorem SunSkyLight.skySize_eq : SunSkyLight.skySize = (512, 256) := by decide

theorem SunSkyLight.skyImageLength_eq : SunSkyLight.skyImageLength = 512 * 256 := by decide

/-- Inside the image the index computation does not overflow. -/
theorem SunSkyLight.index_eq (x y : Int) (hy0 : 0 ≤ y) (hy : y < 256) (hx0 : 0 ≤ x)
    (hx : x < 512) : (SunSkyLight.index x y : Int) = 512 * y + x := by
  unfold SunSkyLight.index
  rw [SunSkyLight.skySize_eq]
  unfold toSizeT wrapInt32
  omega

/-- Row-major enumeration for any index function that agrees with `sx * y + x` inside the
image. -/
theorem range_flatMap_rows_of (sx sy : Nat) (f : Int → Int → Nat)
    (hf : ∀ x y : Nat, x < sx → y < sy → f x y = sx * y + x) :
    (List.range sy).flatMap
        (fun (y : Nat) => (List.range sx).map (fun (x : Nat) => f (x : Int) (y : Int))) =
      List.range (sx * sy) := by
  rw [← range_flatMap_rows]
  apply List.flatMap_congr
  intro y hyr
  apply List.map_congr_left
  intro x hxr
  exact hf x y (List.mem_range.mp hxr) (List.mem_range.mp hyr)

theorem SunSkyLight.writes_eq : SunSkyLight.writes = List.range (512 * 256) := by
  have e1 : SunSkyLight.skySize.1.toNat = 512 := by decide
  have e2 : SunSkyLight.skySize.2.toNat = 256 := by decide
  unfold SunSkyLight.writes SunSkyLight.rowWrites
  rw [e1, e2]
  apply range_flatMap_rows_of 512 256 SunSkyLight.index
  intro x y hx hy
  have := SunSkyLight.index_eq (x : Int) (y : Int) (by omega) (by omega) (by omega) (by omega)
  omega

/-- C17: the constructor fixes the image size to 512 x 256 and `skyImage` to 131072
elements.  In the sky precomputation of `SunSkyLight::commit` every index
`skySize.x * y + x` with `0 <= y < skySize.y` and `0 <= x < skySize.x` is computed without
overflow and lies inside `skyImage`; distinct pairs `(x, y)` give distinct indices, so no
two iterations write the same element; and the elements written, iteration by iteration,
are exactly `0, 1, ..., 131071`, so every element of `skyImage` is written exactly once. -/
theorem C17_sky_image_indices :
    SunSkyLight.skySize = (512, 256) ∧
    SunSkyLight.skyImageLength = 512 * 256 ∧
    (∀ x y : Int, 0 ≤ y → y < SunSkyLight.skySize.2 → 0 ≤ x → x < SunSkyLight.skySize.1 →
      (SunSkyLight.index x y : Int) = SunSkyLight.skySize.1 * y + x ∧
      SunSkyLight.index x y < SunSkyLight.skyImageLength) ∧
    (∀ x y x' y' : Int, 0 ≤ y → y < SunSkyLight.skySize.2 → 0 ≤ x →
      x < SunSkyLight.skySize.1 → 0 ≤ y' → y' < SunSkyLight.skySize.2 → 0 ≤ x' →
      x' < SunSkyLight.skySize.1 →
      SunSkyLight.index x y = SunSkyLight.index x' y' → x = x' ∧ y = y') ∧
    SunSkyLight.writes = List.range SunSkyLight.skyImageLength ∧
    SunSkyLight.writes.Nodup ∧
    (∀ i : Nat, i < SunSkyLight.skyImageLength → SunSkyLight.writes.count i = 1) ∧
    (∀ i ∈ SunSkyLight.writes, i < SunSkyLight.skyImageLength) := by
  have hs := SunSkyLight.skySize_eq
  have hl := SunSkyLight.skyImageLength_eq
  have hw := SunSkyLight.writes_eq
  refine ⟨hs, hl, ?_, ?_, ?_, ?_, ?_, ?_⟩
  · intro x y hy0 hy hx0 hx
    rw [hs] at hy hx
    have h := SunSkyLight.index_eq x y hy0 hy hx0 hx
    rw [hs, hl]
    constructor
    · exact h
    · simp only at hy hx; omega
  · intro x y x' y' hy0 hy hx0 hx hy0' hy' hx0' hx' he
    rw [hs] at hy hx hy' hx'
    have h := SunSkyLight.index_eq x y hy0 hy hx0 hx
    have h' := SunSkyLight.index_eq x' y' hy0' hy' hx0' hx'
    rw [he] at h
    simp only at hy hx hy' hx'
    omega
  · rw [hw, hl]
  · rw [hw]; exact List.nodup_range _
  · intro i hi
    rw [hw]
    rw [hl] at hi
    exact List.count_eq_one_of_mem (List.nodup_range _) (List.mem_range.mpr hi)
  · intro i hi
    rw [hw] at hi
    rw [hl]
    exact List.mem_range.mp hi

/-- Instance of C17: the last pixel, `x = 511`, `y = 255`, is element 131071. -/
theorem C17_sky_image_indices_witness :
    (SunSkyLight.index 511 255 : Int) = SunSkyLight.skySize.1 * 255 + 511 ∧
    SunSkyLight.index 511 255 < SunSkyLight.skyImageLength :=
  C17_sky_image_indices.2.2.1 511 255 (by decide) (by decide) (by decide) (by decide)

/-! ## Renderer::createDefaultCamera -/

/-- The pose `createDefaultCamera` derives from bounds with finite corners. -/
theorem Renderer.createDefaultCamera_of_bounds (getBounds : SgWorld → Box3f)
    (fresh : PerspectiveCamera) (r : Renderer) (up : Vec3f) (w : SgWorld)
    (lx ly lz ux uy uz : ℚ) (hw : r.world = some w)
    (hb : getBounds w = ⟨Vec3f.ofRat lx ly lz, Vec3f.ofRat ux uy uz⟩) :
    (r.createDefaultCamera getBounds fresh up).at_ =
      (⟨Vec3f.ofRat lx ly lz, Vec3f.ofRat ux uy uz⟩ : Box3f).center ∧
    (r.createDefaultCamera getBounds fresh up).up =
      (if up = Vec3f.ofRat 0 0 0 then Vec3f.ofRat 0 1 0 else up).toN ∧
    (r.createDefaultCamera getBounds fresh up).from_ =
      (⟨Vec3f.ofRat lx ly lz, Vec3f.ofRat ux uy uz⟩ : Box3f).center.add
        ((NVec3f.scale float_0_3 (Vec3f.ofRat (-1) 3 (3 / 2)).toN).mul
          (⟨Vec3f.ofRat lx ly lz, Vec3f.ofRat ux uy uz⟩ : Box3f).size) := by
  have hne : (⟨Vec3f.ofRat lx ly lz, Vec3f.ofRat ux uy uz⟩ : Box3f) ≠ Box3f.empty := by
    simp [Box3f.empty, Vec3f.ofRat]
  unfold Renderer.createDefaultCamera
  simp only [hw, hb, hne, if_false]
  refine ⟨?_, ?_, ?_⟩
  · trivial
  · simp [Vec3f.ofRat]
  · rfl

/-- The `float` results for the bounds [(0,0,0),(2,2,2)]. -/
theorem createDefaultCamera_example_values :
    (⟨Vec3f.ofRat 0 0 0, Vec3f.ofRat 2 2 2⟩ : Box3f).center = (Vec3f.ofRat 1 1 1).toN ∧
    (⟨Vec3f.ofRat 0 0 0, Vec3f.ofRat 2 2 2⟩ : Box3f).center.add
        ((NVec3f.scale float_0_3 (Vec3f.ofRat (-1) 3 (3 / 2)).toN).mul
          (⟨Vec3f.ofRat 0 0 0, Vec3f.ofRat 2 2 2⟩ : Box3f).size) =
      (Vec3f.ofRat (3355443 / 8388608) (2936013 / 1048576) (3984589 / 2097152)).toN := by
  decide!

/-- C14, as stated, fails: for the bounds [(0,0,0),(2,2,2)] and `up = (0,0,0)` the
position that `createDefaultCamera` computes in `float` arithmetic is
(3355443/2^23, 2936013/2^20, 3984589/2^21), about (0.39999998, 2.8000002, 1.9000001).
It is neither (0.4, 2.8, 1.9) nor the triple of `float` values nearest to these. -/
theorem C14_default_camera_position_is_rounded :
    (Renderer.sample.createDefaultCamera boundsExample PerspectiveCamera.sample
        (Vec3f.ofRat 0 0 0)).from_ =
      (Vec3f.ofRat (3355443 / 8388608) (2936013 / 1048576) (3984589 / 2097152)).toN ∧
    (Renderer.sample.createDefaultCamera boundsExample PerspectiveCamera.sample
        (Vec3f.ofRat 0 0 0)).from_ ≠ (Vec3f.ofRat 0.4 2.8 1.9).toN ∧
    (Renderer.sample.createDefaultCamera boundsExample PerspectiveCamera.sample
        (Vec3f.ofRat 0 0 0)).from_ ≠
      ⟨some (roundBinary32 0.4), some (roundBinary32 2.8), some (roundBinary32 1.9)⟩ := by
  decide!

/-- C14, amended: for a world whose bounds are a box with finite corners (every non-empty
box is one), `createDefaultCamera(up)` sets the look-at point to the box centre
`0.5f * (lower + upper)`, the up vector to `up`, or to (0,1,0) when `up` is the zero
vector, and the position to centre + .3f * (-1, 3, 1.5) * size, componentwise, where each
`float` operation rounds to binary32.  For the bounds [(0,0,0),(2,2,2)] and
`up = (0,0,0)` this gives at = (1,1,1), up = (0,1,0) and
from = (3355443/2^23, 2936013/2^20, 3984589/2^21), whose coordinates lie within 2^-22 of
0.4, 2.8 and 1.9. -/
theorem C14_default_camera_from_bounds (getBounds : SgWorld → Box3f)
    (fresh : PerspectiveCamera) (r : Renderer) (up : Vec3f) (w : SgWorld)
    (lx ly lz ux uy uz : ℚ) (hw : r.world = some w)
    (hb : getBounds w = ⟨Vec3f.ofRat lx ly lz, Vec3f.ofRat ux uy uz⟩) :
    ((r.createDefaultCamera getBounds fresh up).at_ =
        NVec3f.scale (Scalar.fin (1 / 2))
          ((Vec3f.ofRat lx ly lz).toN.add (Vec3f.ofRat ux uy uz).toN) ∧
      (r.createDefaultCamera getBounds fresh up).up =
        (if up = Vec3f.ofRat 0 0 0 then Vec3f.ofRat 0 1 0 else up).toN ∧
      (r.createDefaultCamera getBounds fresh up).from_ =
        (r.createDefaultCamera getBounds fresh up).at_.add
          ((NVec3f.scale float_0_3 (Vec3f.ofRat (-1) 3 (3 / 2)).toN).mul
            ((Vec3f.ofRat ux uy uz).toN.add (Vec3f.ofRat (-lx) (-ly) (-lz)).toN))) ∧
    (lx = 0 → ly = 0 → lz = 0 → ux = 2 → uy = 2 → uz = 2 → up = Vec3f.ofRat 0 0 0 →
      (r.createDefaultCamera getBounds fresh up).at_ = (Vec3f.ofRat 1 1 1).toN ∧
      (r.createDefaultCamera getBounds fresh up).up = (Vec3f.ofRat 0 1 0).toN ∧
      (r.createDefaultCamera getBounds fresh up).from_ =
        (Vec3f.ofRat (3355443 / 2 ^ 23) (2936013 / 2 ^ 20) (3984589 / 2 ^ 21)).toN ∧
      |(3355443 / 2 ^ 23 : ℚ) - 0.4| ≤ 1 / 2 ^ 22 ∧
      |(2936013 / 2 ^ 20 : ℚ) - 2.8| ≤ 1 / 2 ^ 22 ∧
      |(3984589 / 2 ^ 21 : ℚ) - 1.9| ≤ 1 / 2 ^ 22) := by
  obtain ⟨h1, h2, h3⟩ :=
    Renderer.createDefaultCamera_of_bounds getBounds fresh r up w lx ly lz ux uy uz hw hb
  refine ⟨⟨h1, h2, ?_⟩, ?_⟩
  · rw [h3, h1]
    rfl
  · rintro rfl rfl rfl rfl rfl rfl rfl
    obtain ⟨e1, e2⟩ := createDefaultCamera_example_values
    rw [h3, e2, h1, e1, h2]
    refine ⟨rfl, by simp, ?_, ?_, ?_, ?_⟩
    · norm_num [Vec3f.ofRat]
    · rw [abs_le]; constructor <;> norm_num
    · rw [abs_le]; constructor <;> norm_num
    · rw [abs_le]; constructor <;> norm_num

/-- Instance of the amended C14: the sample renderer, bounds [(0,0,0),(2,2,2)], zero up
vector. -/
theorem C14_default_camera_from_bounds_witness :
    (Renderer.sample.createDefaultCamera boundsExample PerspectiveCamera.sample
        (Vec3f.ofRat 0 0 0)).at_ = (Vec3f.ofRat 1 1 1).toN ∧
    (Renderer.sample.createDefaultCamera boundsExample PerspectiveCamera.sample
        (Vec3f.ofRat 0 0 0)).up = (Vec3f.ofRat 0 1 0).toN ∧
    (Renderer.sample.createDefaultCamera boundsExample PerspectiveCamera.sample
        (Vec3f.ofRat 0 0 0)).from_ =
      (Vec3f.ofRat (3355443 / 2 ^ 23) (2936013 / 2 ^ 20) (3984589 / 2 ^ 21)).toN := by
  have h := (C14_default_camera_from_bounds boundsExample PerspectiveCamera.sample
    Renderer.sample (Vec3f.ofRat 0 0 0) ⟨2, some 100, []⟩ 0 0 0 2 2 2 rfl rfl).2
    rfl rfl rfl rfl rfl rfl rfl
  exact ⟨h.1, h.2.1, h.2.2.1⟩

/-- C15: when no world is attached, or the bounds of the attached world equal the
canonical empty box, `createDefaultCamera` returns the freshly constructed perspective
camera with its pose untouched: `at`, `up` and `from` are those of the fresh camera for
every value of the `up` argument, zero or not; the camera has been committed once. -/
theorem C15_default_camera_fallback (getBounds : SgWorld → Box3f)
    (fresh : PerspectiveCamera) (r : Renderer) (up : Vec3f)
    (h : r.world = none ∨ ∃ w, r.world = some w ∧ getBounds w = Box3f.empty) :
    (r.createDefaultCamera getBounds fresh up).at_ = fresh.at_ ∧
    (r.createDefaultCamera getBounds fresh up).up = fresh.up ∧
    (r.createDefaultCamera getBounds fresh up).from_ = fresh.from_ ∧
    (r.createDefaultCamera getBounds fresh up).commits = fresh.commits + 1 := by
  unfold Renderer.createDefaultCamera
  rcases h with h | ⟨w, hw, hb⟩
  · simp [h]
  · simp [hw, hb]

/-- Instance of C15: the sample renderer without a world, and with a world whose bounds
are empty, asked for a non-zero up vector. -/
theorem C15_default_camera_fallback_witness :
    (({ Renderer.sample with world := none } : Renderer).createDefaultCamera boundsExample
        PerspectiveCamera.sample (Vec3f.ofRat 0 0 1)).from_ = PerspectiveCamera.sample.from_ ∧
    (Renderer.sample.createDefaultCamera (fun _ => Box3f.empty) PerspectiveCamera.sample
        (Vec3f.ofRat 1 0 0)).up = PerspectiveCamera.sample.up :=
  ⟨(C15_default_camera_fallback boundsExample PerspectiveCamera.sample
      ({ Renderer.sample with world := none } : Renderer) (Vec3f.ofRat 0 0 1)
      (Or.inl rfl)).2.2.1,
   (C15_default_camera_fallback (fun _ => Box3f.empty) PerspectiveCamera.sample
      Renderer.sample (Vec3f.ofRat 1 0 0) (Or.inr ⟨⟨2, some 100, []⟩, rfl, rfl⟩)).2.1⟩

end OSPRay
